import Mathlib

/-!
# deployment_manager: gateway pairing and authentication server

A shallow embedding of the Go sources (`defs.go`, `helper.go`,
`conn_handler.go`, `processor.go`) and theorems about it.

Conventions of the embedding.

* A byte is a `Nat` (meant to be below 256); a byte slice or array is a
  `List Nat`.  `uint16`/`uint32` values are `Nat`; the only arithmetic that can
  overflow in the sources is `nextDevId += 1`, which is taken modulo `2^32`.
* Go maps are functions into `Option`; a lookup of an absent key yields the
  zero value of the element type together with `false`, as in Go.
* A Go run-time panic (index or slice bound out of range) is the result
  `GoResult.panicked`.
* The library primitives HMAC-SHA256 and X25519 are parameters (`Crypto`).
  The values read from the clock and from the random source are inputs of the
  step that reads them.
-/

namespace DeploymentManager

/-! ## Constants (`defs.go`) -/

def SHA256_OUTPUT_SIZE : Nat := 32
def HMAC_KEY_LEN : Nat := 32
def KEY_LEN : Nat := HMAC_KEY_LEN
def HMAC_OUTPUT_SIZE : Nat := SHA256_OUTPUT_SIZE

def DEVICE_ID_LEN : Nat := 4
def REB_CNT_LEN : Nat := 4
def REQ_CNT_LEN : Nat := 4
def ACCESS_TYPE_LEN : Nat := 2
def RANDOM_LEN : Nat := 16

def HEADER_LEN : Nat := 3

def PAYLOAD_SIGNUP_REQ : Nat := 0
def PAYLOAD_SIGNUP_RESP : Nat := 1
def PAYLOAD_AUTH_REQ : Nat := 2
def PAYLOAD_AUTH_RESP : Nat := 3
def PAYLOAD_CONTROL : Nat := 4

def LEN_PAYLOAD_SIGNUP_REQ : Nat := 2 + KEY_LEN + KEY_LEN + HMAC_OUTPUT_SIZE
def LEN_PAYLOAD_SIGNUP_RESP : Nat := 4 + KEY_LEN + HMAC_OUTPUT_SIZE
def LEN_PAYLOAD_AUTH_REQ : Nat :=
  DEVICE_ID_LEN + REB_CNT_LEN + REQ_CNT_LEN + ACCESS_TYPE_LEN + HMAC_OUTPUT_SIZE
def LEN_PAYLOAD_AUTH_RESP : Nat := RANDOM_LEN + HMAC_OUTPUT_SIZE
def LEN_PAYLOAD_CONTROL : Nat := 3

def PAYLOAD_LENS : List Nat :=
  [LEN_PAYLOAD_SIGNUP_REQ, LEN_PAYLOAD_SIGNUP_RESP, LEN_PAYLOAD_AUTH_REQ,
   LEN_PAYLOAD_AUTH_RESP, LEN_PAYLOAD_CONTROL]

def SAMPLE_SENSOR_0 : Nat := 0
def SAMPLE_SENSOR_1 : Nat := 1
def CONTROL_ACTUATOR_0 : Nat := 2
def CONTROL_ACTUATOR_1 : Nat := 3
def DUMMY_REQUEST : Nat := 0x69

/-! ## Byte-level helpers (Go built-ins and `encoding/binary`) -/

/-- Result of a Go call that may return an error value or panic. -/
inductive GoResult (ε α : Type) where
  | ok : α → GoResult ε α
  | fail : ε → GoResult ε α
  | panicked : GoResult ε α
  deriving DecidableEq, Repr

/-- Go `make([]byte, n)`: `n` zero bytes. -/
def zeros (n : Nat) : List Nat := List.replicate n 0

/-- Go `copy(dst, src)`: the first `min (len dst) (len src)` bytes of `dst`
are overwritten by those of `src`; the length of `dst` is unchanged. -/
def goCopy (dst src : List Nat) : List Nat :=
  src.take dst.length ++ dst.drop src.length

/-- Go `s[lo:hi]` on a slice whose capacity equals its length: panics
(`none`) unless `lo ≤ hi ≤ len s`. -/
def goSlice (s : List Nat) (lo hi : Nat) : Option (List Nat) :=
  if lo ≤ hi ∧ hi ≤ s.length then some ((s.drop lo).take (hi - lo)) else none

/-- Go `s[lo:]`: panics (`none`) unless `lo ≤ len s`. -/
def goSliceFrom (s : List Nat) (lo : Nat) : Option (List Nat) :=
  if lo ≤ s.length then some (s.drop lo) else none

/-- `binary.LittleEndian.Uint16`: panics (`none`) on fewer than 2 bytes. -/
def leUint16 : List Nat → Option Nat
  | b0 :: b1 :: _ => some (b0 + 256 * b1)
  | _ => none

/-- `binary.LittleEndian.Uint32`: panics (`none`) on fewer than 4 bytes. -/
def leUint32 : List Nat → Option Nat
  | b0 :: b1 :: b2 :: b3 :: _ => some (b0 + 256 * b1 + 65536 * b2 + 16777216 * b3)
  | _ => none

/-- `binary.LittleEndian.PutUint16`: the two bytes written. -/
def putUint16 (v : Nat) : List Nat := [v % 256, (v / 256) % 256]

/-- `binary.LittleEndian.PutUint32`: the four bytes written. -/
def putUint32 (v : Nat) : List Nat :=
  [v % 256, (v / 256) % 256, (v / 65536) % 256, (v / 16777216) % 256]

/-! ## Types (`defs.go`) -/

structure Header where
  PayloadType : Nat
  PayloadLen : Nat
  deriving DecidableEq, Repr

/-- The connection handle `*net.TCPConn` is represented by a number. -/
structure SignupReq where
  Conn : Nat
  DevType : Nat
  SPubGW : List Nat
  EPubGw : List Nat
  MacTag : List Nat
  CapURI : List Nat
  deriving DecidableEq, Repr

structure AuthReq where
  DevId : Nat
  AccessType : Nat
  RebCnt : Nat
  ReqCnt : Nat
  MacTag : List Nat
  deriving DecidableEq, Repr

structure Scan where
  SPubGW : List Nat
  Psk : List Nat
  deriving DecidableEq, Repr

structure Sessionkeys where
  K_gw_s : List Nat
  K_s_gw : List Nat
  deriving DecidableEq, Repr

structure LogEntry where
  ArrivalTime : Nat
  DevId : Nat
  Paired : Bool
  AuthReq : AuthReq
  deriving DecidableEq, Repr

/-- The field `Type` of the source is `Type_` here (reserved word). -/
structure DeviceState where
  Conn : Nat
  Id : Nat
  Type_ : Nat
  rebCnt : Nat
  reqCnt : Nat
  CapURI : List Nat
  LastRandomness : List Nat
  Sesskeys : Sessionkeys
  Paired : Bool
  ScanData : Scan
  Log : List LogEntry
  deriving DecidableEq, Repr

/-- Go `map[uint32]DeviceState`. -/
abbrev ServerState := Nat → Option DeviceState

/-- Go `map[[32]byte]Scan`. -/
abbrev Scans := List Nat → Option Scan

/-- The zero value of `Scan`: two arrays of `KEY_LEN` zero bytes. -/
def Scan.zero : Scan := { SPubGW := zeros KEY_LEN, Psk := zeros KEY_LEN }

/-- Go `v, ok := scans[k]`. -/
def Scans.lookup (scans : Scans) (k : List Nat) : Scan × Bool :=
  match scans k with
  | some s => (s, true)
  | none => (Scan.zero, false)

/-- Go `scans[k] = v`. -/
def Scans.store (scans : Scans) (k : List Nat) (v : Scan) : Scans :=
  fun k2 => if k2 = k then some v else scans k2

/-- Go `sState[k] = v`. -/
def ServerState.store (sState : ServerState) (k : Nat) (v : DeviceState) : ServerState :=
  fun k2 => if k2 = k then some v else sState k2

/-- The error values of `defs.go`. -/
inductive DecodeError where
  | InvalidPayloadType (payloadType : Nat)
  | InvalidPayloadLen (payloadType payloadLen : Nat)
  | InvalidAccessType (accessType : Nat)
  | NotYetImplementedPayloadType (payloadType : Nat)
  deriving DecidableEq, Repr

/-- What `processPayload` sends into `signupReqChan` or `authReqChan`. -/
inductive Request where
  | signup (r : SignupReq)
  | auth (r : AuthReq)
  deriving DecidableEq, Repr

/-! ## Wire codec (`conn_handler.go`) -/

/-- `parseHeader`. -/
def parseHeader (headerBuf : List Nat) : GoResult DecodeError Header :=
  match headerBuf[0]? with
  | none => .panicked
  | some payloadType =>
    if payloadType ≠ PAYLOAD_AUTH_REQ ∧ payloadType ≠ PAYLOAD_SIGNUP_REQ then
      .fail (.InvalidPayloadType payloadType)
    else
      match (goSliceFrom headerBuf 1).bind leUint16 with
      | none => .panicked
      | some payloadLen =>
        if payloadType ≠ PAYLOAD_SIGNUP_REQ then
          match PAYLOAD_LENS[payloadType]? with
          | none => .panicked
          | some expected =>
            if payloadLen ≠ expected then
              .fail (.InvalidPayloadLen payloadType payloadLen)
            else .ok { PayloadType := payloadType, PayloadLen := payloadLen }
        else .ok { PayloadType := payloadType, PayloadLen := payloadLen }

/-- `parseAuthReq`. -/
def parseAuthReq (payloadBuf : List Nat) : GoResult DecodeError AuthReq :=
  match leUint32 payloadBuf with
  | none => .panicked
  | some deviceId =>
  match (goSliceFrom payloadBuf DEVICE_ID_LEN).bind leUint32 with
  | none => .panicked
  | some rebCnt =>
  match (goSliceFrom payloadBuf (DEVICE_ID_LEN + REB_CNT_LEN)).bind leUint32 with
  | none => .panicked
  | some reqCnt =>
  match (goSliceFrom payloadBuf (DEVICE_ID_LEN + REB_CNT_LEN + REQ_CNT_LEN)).bind leUint16 with
  | none => .panicked
  | some accessType =>
  match goSliceFrom payloadBuf (DEVICE_ID_LEN + REB_CNT_LEN + REQ_CNT_LEN + ACCESS_TYPE_LEN) with
  | none => .panicked
  | some macTag =>
    if (accessType < SAMPLE_SENSOR_0 ∨ accessType > CONTROL_ACTUATOR_1)
        ∧ accessType ≠ DUMMY_REQUEST then
      .fail (.InvalidAccessType accessType)
    else
      .ok { DevId := deviceId, AccessType := accessType, RebCnt := rebCnt,
            ReqCnt := reqCnt, MacTag := macTag }

/-- `processPayload`: the parsed request that is sent into its channel, an
error value, or a panic of one of the slice expressions. -/
def processPayload (conn : Nat) (payloadBuf : List Nat) (payloadType : Nat) :
    GoResult DecodeError Request :=
  if payloadType = PAYLOAD_SIGNUP_REQ then
    match goSlice payloadBuf 2 (2 + KEY_LEN) with
    | none => .panicked
    | some sPubSrc =>
    let sPub := goCopy (zeros KEY_LEN) sPubSrc
    match goSlice payloadBuf (2 + KEY_LEN) (2 + KEY_LEN + KEY_LEN) with
    | none => .panicked
    | some ePubSrc =>
    let ePub := goCopy (zeros KEY_LEN) ePubSrc
    match goSlice payloadBuf (2 + KEY_LEN + KEY_LEN) (2 + KEY_LEN + KEY_LEN + HMAC_OUTPUT_SIZE) with
    | none => .panicked
    | some macTag =>
    match goSliceFrom payloadBuf (2 + KEY_LEN + KEY_LEN + HMAC_OUTPUT_SIZE) with
    | none => .panicked
    | some capURI =>
    match (goSlice payloadBuf 0 2).bind leUint16 with
    | none => .panicked
    | some devType =>
      .ok (.signup { Conn := conn, DevType := devType, SPubGW := sPub, EPubGw := ePub,
                     MacTag := macTag, CapURI := capURI })
  else if payloadType = PAYLOAD_AUTH_REQ then
    match parseAuthReq payloadBuf with
    | .ok authReq => .ok (.auth authReq)
    | .fail e => .fail e
    | .panicked => .panicked
  else .fail (.NotYetImplementedPayloadType payloadType)

/-- How a run of the connection task ends. -/
inductive ConnEnd where
  | closed
  | crashed
  | outOfFuel
  deriving DecidableEq, Repr

/-- The read/decode loop of `connHandler` on the bytes the peer sends before
it closes the connection.  `io.ReadFull` of `n` bytes succeeds when `n` bytes
are left (always when `n = 0`) and otherwise reports `EOF` or
`ErrUnexpectedEOF`, on which the loop breaks.  The result is the sequence of
requests sent into the channels, in order, and how the task ended. -/
def connLoop (conn : Nat) : Nat → List Nat → List Request × ConnEnd
  | 0, _ => ([], .outOfFuel)
  | fuel + 1, stream =>
    if stream.length < HEADER_LEN then ([], .closed)
    else
      let headerBuf := stream.take HEADER_LEN
      let rest := stream.drop HEADER_LEN
      match parseHeader headerBuf with
      | .panicked => ([], .crashed)
      | .fail _ => connLoop conn fuel rest
      | .ok header =>
        let payloadType := header.PayloadType
        let payloadLen := header.PayloadLen
        if rest.length < payloadLen then ([], .closed)
        else
          let payloadBuf := rest.take payloadLen
          let rest2 := rest.drop payloadLen
          match processPayload conn payloadBuf payloadType with
          | .panicked => ([], .crashed)
          | .fail _ => connLoop conn fuel rest2
          | .ok req =>
            let r := connLoop conn fuel rest2
            (req :: r.1, r.2)

/-- `connHandler` on a finite stream: every iteration consumes at least the
three header bytes, so `stream.length + 1` iterations always suffice. -/
def connHandler (conn : Nat) (stream : List Nat) : List Request × ConnEnd :=
  connLoop conn (stream.length + 1) stream

/-! ## Cryptographic helpers (`helper.go`) -/

/-- The library primitives the program calls: `hmac key msg` is HMAC-SHA256
(`hmac.New(sha256.New, key)`, `Write(msg)`, `Sum(nil)`; `Write` of a hash never
returns an error) and `x25519 scalar point` is `curve25519.X25519`, which may
return an error (`none`). -/
structure Crypto where
  hmac : List Nat → List Nat → List Nat
  x25519 : List Nat → List Nat → Option (List Nat)

/-- `curve25519.Basepoint`. -/
def Basepoint : List Nat := 9 :: zeros 31

/-- `createEphemeralKeyPair`: `rnd` is what `rand.Reader.Read` delivers into
the 32-byte buffer (`none` when it returns an error). -/
def createEphemeralKeyPair (C : Crypto) (rnd : Option (List Nat)) :
    Option (List Nat × List Nat) :=
  match rnd with
  | none => none
  | some r =>
    let x := goCopy (zeros 32) r
    match C.x25519 x Basepoint with
    | none => none
    | some y => some (x, y)

/-- `diffieHellman`. -/
def diffieHellman (C : Crypto) (priv pub : List Nat) : Option (List Nat) :=
  C.x25519 priv pub

/-- `HkdfExtract`. -/
def HkdfExtract (C : Crypto) (salt ikm : List Nat) : List Nat :=
  C.hmac salt ikm

/-- `HkdfExpandSimplified`. -/
def HkdfExpandSimplified (C : Crypto) (prk info : List Nat) : List Nat :=
  let hmacInput := info ++ [0x01]
  C.hmac prk hmacInput

/-- `Hkdf`. -/
def Hkdf (C : Crypto) (ikm salt : List Nat) (infos : List (List Nat)) : List (List Nat) :=
  let prk := HkdfExtract C salt ikm
  infos.map (fun info => HkdfExpandSimplified C prk info)

/-- `buildHeader` on a 3-byte buffer: the bytes written.  Both call sites
pass a constant payload type that is an index of `PAYLOAD_LENS`. -/
def buildHeader (payloadType : Nat) : List Nat :=
  payloadType :: putUint16 (PAYLOAD_LENS.getD payloadType 0)

/-- `buildMsg` into a zeroed buffer of `outLen` bytes, `outLen ≥ HEADER_LEN`. -/
def buildMsg (outLen : Nat) (payloadType : Nat) (payload : List Nat) : List Nat :=
  buildHeader payloadType ++ goCopy (zeros (outLen - HEADER_LEN)) payload

/-- `createSignupResp`.  The 71-byte buffer is the header (3 bytes), the
device id (4 bytes) and the 64-byte region `payloadBuf[4:]`, into which first
`ePubSRV` and then, from offset `KEY_LEN` of the region, the MAC tag are
copied.  The error result is that of `hmacer.Write`, which is always nil. -/
def createSignupResp (C : Crypto) (devId : Nat) (ePubSRV ePubGW psk : List Nat) :
    Option (List Nat) :=
  let header := buildHeader PAYLOAD_SIGNUP_RESP
  let region := goCopy (zeros (LEN_PAYLOAD_SIGNUP_RESP - DEVICE_ID_LEN)) ePubSRV
  let hmacInput := ePubSRV ++ ePubGW
  let macTag := C.hmac psk hmacInput
  let region2 := region.take KEY_LEN ++ goCopy (region.drop KEY_LEN) macTag
  some (header ++ putUint32 devId ++ region2)

/-! ## The processor (`processor.go`) -/

/-- The variables of `processor` that live across iterations of its event
loop. -/
structure ProcState where
  nextDevId : Nat
  scans : Scans
  sState : ServerState

/-- The state `processor` starts its loop with. -/
def ProcState.init : ProcState :=
  { nextDevId := 0, scans := fun _ => none, sState := fun _ => none }

/-- Which way one iteration of the event loop went. -/
inductive Branch where
  | scanIgnored
  | scanStored
  | signupNoScan
  | signupKeyPairFailed
  | signupDhFailed
  | signupRespFailed
  | signupDone
  | authUnknownDevice
  | authOldRebCnt
  | authOldReqCnt
  | authBadMac
  | authDummy
  | authRandFailed
  | authResponded
  deriving DecidableEq, Repr

/-- One iteration of the event loop: the state afterwards, the messages
written (connection handle and bytes, in order) and the branch taken. -/
structure StepResult where
  state : ProcState
  writes : List (Nat × List Nat)
  branch : Branch

/-- The case `scan = <-scanChan` of the main select. -/
def scanStep (st : ProcState) (scan : Scan) : StepResult :=
  let sPubGw := scan.SPubGW
  let scanExists := (st.scans.lookup sPubGw).2
  if scanExists then
    { state := st, writes := [], branch := .scanIgnored }
  else
    { state := { st with scans := st.scans.store sPubGw scan }, writes := [],
      branch := .scanStored }

/-- The inner loop of the signup case (step 1.1.1): it receives from
`scanChan` until the channel is empty; `queued` is what it receives, in
order.  Inside the case clause `scan, scanExists := scans[sPubGw]` declares
a new `scan`, which holds the result of the map lookup; that value is what
`scans[sPubGw] = scan` stores. -/
def drainScans (scans : Scans) : List Scan → Scans
  | [] => scans
  | received :: queued =>
    let sPubGw := received.SPubGW
    let (scan, scanExists) := scans.lookup sPubGw
    if scanExists then drainScans scans queued
    else drainScans (scans.store sPubGw scan) queued

/-- The strings `"gw_s"` and `"s_gw"` as bytes. -/
def infos : List (List Nat) := [[103, 119, 95, 115], [115, 95, 103, 119]]

/-- Step 1.1 of the signup case: the lookup of the request's static key and,
when it misses, the inner loop followed by the second lookup.  The result is
the registry afterwards and the values of `scan` and `scanExists`. -/
def resolveScan (scans : Scans) (sPubGw : List Nat) (queued : List Scan) :
    Scans × Scan × Bool :=
  let found := scans.lookup sPubGw
  if !found.2 then
    let scans2 := drainScans scans queued
    let found2 := scans2.lookup sPubGw
    (scans2, found2.1, found2.2)
  else (scans, found.1, found.2)

/-- The case `signupReq = <-signupReqChan`.  `queued` is the content of
`scanChan` that the inner loop receives if it runs; `rnd` is the outcome of
the read of the random source in `createEphemeralKeyPair`. -/
def signupStep (C : Crypto) (st : ProcState) (signupReq : SignupReq)
    (queued : List Scan) (rnd : Option (List Nat)) : StepResult :=
  let sPubGw := signupReq.SPubGW
  let resolved := resolveScan st.scans sPubGw queued
  let scans := resolved.1
  let scan := resolved.2.1
  let scanExists := resolved.2.2
  let st1 : ProcState := { st with scans := scans }
  if !scanExists then
    { state := st1, writes := [], branch := .signupNoScan }
  else
    match createEphemeralKeyPair C rnd with
    | none => { state := st1, writes := [], branch := .signupKeyPairFailed }
    | some (xSlice, xP) =>
      let x := goCopy (zeros KEY_LEN) xSlice
      let ePubGw := signupReq.EPubGw
      match diffieHellman C x sPubGw with
      | none => { state := st1, writes := [], branch := .signupDhFailed }
      | some s1 =>
        match diffieHellman C x ePubGw with
        | none => { state := st1, writes := [], branch := .signupDhFailed }
        | some s2 =>
          let ikm := s1 ++ s2 ++ scan.Psk
          let salt := zeros 16
          let keys := Hkdf C ikm salt infos
          let sessKeys : Sessionkeys :=
            { K_gw_s := keys.getD 0 [], K_s_gw := keys.getD 1 [] }
          let devType := signupReq.DevType
          let log : List LogEntry := []
          let devId := st1.nextDevId
          let nextDevId := (st1.nextDevId + 1) % 2 ^ 32
          let sState := st1.sState.store devId
            { Conn := signupReq.Conn, Id := devId, Type_ := devType, rebCnt := 0,
              reqCnt := 0, LastRandomness := zeros RANDOM_LEN,
              CapURI := signupReq.CapURI, Sesskeys := sessKeys, Paired := false,
              ScanData := scan, Log := log }
          let st2 : ProcState := { nextDevId := nextDevId, scans := scans, sState := sState }
          match createSignupResp C devId xP ePubGw scan.Psk with
          | none => { state := st2, writes := [], branch := .signupRespFailed }
          | some respMsg =>
            { state := st2, writes := [(signupReq.Conn, respMsg)], branch := .signupDone }

/-- The slice the request MAC is computed over (step 3.3.2): a 26-byte
buffer holding the two counters, the access type and, copied into its last
`RANDOM_LEN` bytes, the stored `LastRandomness`. -/
def authMacInput (authReq : AuthReq) (lastRandomness : List Nat) : List Nat :=
  putUint32 authReq.RebCnt ++ putUint32 authReq.ReqCnt ++ putUint16 authReq.AccessType
    ++ goCopy (zeros RANDOM_LEN) lastRandomness

/-- `subtle.ConstantTimeCompare`: 1 when the two slices have the same length
and contents, else 0. -/
def constantTimeCompare (a b : List Nat) : Nat := if a = b then 1 else 0

/-- The case `authReq = <-authReqChan`.  `now` is `time.Now()`; `rnd` is what
`rand.Read` delivers into `respSlice[:RANDOM_LEN]` (`none` when it returns an
error). -/
def authStep (C : Crypto) (st : ProcState) (authReq : AuthReq) (now : Nat)
    (rnd : Option (List Nat)) : StepResult :=
  let devId := authReq.DevId
  match st.sState devId with
  | none => { state := st, writes := [], branch := .authUnknownDevice }
  | some devState0 =>
    let logEntry : LogEntry :=
      { ArrivalTime := now, DevId := 0, Paired := devState0.Paired, AuthReq := authReq }
    let devState : DeviceState := { devState0 with Log := devState0.Log ++ [logEntry] }
    let st1 : ProcState := { st with sState := st.sState.store devId devState }
    let chalKey := devState.Sesskeys.K_gw_s
    let authKey := devState.Sesskeys.K_s_gw
    if authReq.RebCnt < devState.rebCnt then
      { state := st1, writes := [], branch := .authOldRebCnt }
    else if authReq.ReqCnt < devState.reqCnt then
      { state := st1, writes := [], branch := .authOldReqCnt }
    else
      let macInput := authMacInput authReq devState.LastRandomness
      let macTag := C.hmac chalKey macInput
      let macEquals := constantTimeCompare macTag authReq.MacTag
      if macEquals ≠ 1 then
        { state := st1, writes := [], branch := .authBadMac }
      else if authReq.AccessType = DUMMY_REQUEST then
        -- `devState.Paired = true` assigns to the local copy `devState` only;
        -- the iteration ends (`continue`) without `sState[devId] = devState`.
        let _devState : DeviceState := { devState with Paired := true }
        { state := st1, writes := [], branch := .authDummy }
      else
        match rnd with
        | none => { state := st1, writes := [], branch := .authRandFailed }
        | some r =>
          let sRandom := goCopy (zeros RANDOM_LEN) r
          let respSlice := sRandom ++ goCopy (zeros HMAC_OUTPUT_SIZE) authReq.MacTag
          let devState2 : DeviceState :=
            { devState with rebCnt := authReq.RebCnt, reqCnt := authReq.ReqCnt,
                            LastRandomness := respSlice.take RANDOM_LEN }
          let st2 : ProcState := { st1 with sState := st1.sState.store devId devState2 }
          let authTag := C.hmac authKey respSlice
          let respSlice2 :=
            respSlice.take RANDOM_LEN ++ goCopy (respSlice.drop RANDOM_LEN) authTag
          let authMsg := buildMsg (HEADER_LEN + LEN_PAYLOAD_AUTH_RESP) PAYLOAD_AUTH_RESP respSlice2
          { state := st2, writes := [(devState.Conn, authMsg)], branch := .authResponded }

/-- What the event loop receives in one iteration, with the inputs that
iteration reads from its environment. -/
inductive Event where
  | scan (scan : Scan)
  | signup (signupReq : SignupReq) (queued : List Scan) (rnd : Option (List Nat))
  | auth (authReq : AuthReq) (now : Nat) (rnd : Option (List Nat))

/-- One iteration of the event loop of `processor`. -/
def step (C : Crypto) (st : ProcState) : Event → StepResult
  | .scan scan => scanStep st scan
  | .signup signupReq queued rnd => signupStep C st signupReq queued rnd
  | .auth authReq now rnd => authStep C st authReq now rnd

/-- The event loop on a sequence of events: the final state and all messages
written, in order. -/
def run (C : Crypto) (st : ProcState) : List Event → ProcState × List (Nat × List Nat)
  | [] => (st, [])
  | e :: es =>
    let r := step C st e
    let rest := run C r.state es
    (rest.1, r.writes ++ rest.2)

/-- Follows the spec (4.2), not the source: `insert(record)` is a no-op if
the static public key is already present, else it inserts the record. -/
def insertSpec (scans : Scans) (record : Scan) : Scans :=
  if (scans record.SPubGW).isSome then scans else scans.store record.SPubGW record

/-- Follows the spec (4.3, step 2), not the source: the drain inserts each
queued scan into the registry, in queue order. -/
def drainSpec (scans : Scans) (queued : List Scan) : Scans :=
  queued.foldl insertSpec scans

/-- The branches of the auth case that lie behind the MAC comparison
(step 3.3.5): the request was found fresh and authentic. -/
def Branch.pastMac : Branch → Bool
  | .authDummy => true
  | .authRandFailed => true
  | .authResponded => true
  | _ => false

/-- Every registered device id is below the counter `nextDevId`. -/
def IdsBelowNext (st : ProcState) : Prop :=
  ∀ id dev, st.sState id = some dev → id < st.nextDevId

/-- Every record of `s` is still present in `t`, with both counters equal or
larger. -/
def CountersLe (s t : ServerState) : Prop :=
  ∀ id dev, s id = some dev →
    ∃ dev2, t id = some dev2 ∧ dev.rebCnt ≤ dev2.rebCnt ∧ dev.reqCnt ≤ dev2.reqCnt

/-- The device id a step assigns: the value of `nextDevId` before the step
when the step is a signup that reaches step 3.2 (`devId := nextDevId`). -/
def assignedId (st : ProcState) (r : StepResult) : Option Nat :=
  if r.branch = .signupDone ∨ r.branch = .signupRespFailed then some st.nextDevId else none

/-- The device ids assigned along a run of the event loop, in order. -/
def assignedIds (C : Crypto) (st : ProcState) : List Event → List Nat
  | [] => []
  | e :: es =>
    let r := step C st e
    (assignedId st r).toList ++ assignedIds C r.state es

/-- After `n` assignments of a device id the counter `nextDevId` is `n`
modulo 2^32 and every registered id is below `n`. -/
def IdsCounted (st : ProcState) (n : Nat) : Prop :=
  st.nextDevId = n % 2 ^ 32 ∧ ∀ id dev, st.sState id = some dev → id < n

/-! ## A concrete instance of the parameters

Stand-ins for the two library primitives and one small scenario, used only to
evaluate the model on concrete inputs.  Every theorem that quantifies over
`Crypto` holds for all instances. -/

namespace Fixture

def mix (seed : Nat) (bs : List Nat) : Nat :=
  bs.foldl (fun acc b => (acc * 31 + b + 1) % 65521) seed

/-- A keyed 32-byte tag. -/
def hmac (key msg : List Nat) : List Nat :=
  (List.range 32).map (fun i => (mix (mix 7 key) msg + 13 * i) % 256)

/-- A 32-byte combination of scalar and point that never fails. -/
def x25519 (scalar point : List Nat) : Option (List Nat) :=
  some (List.zipWith (fun a b => (a + 2 * b + 1) % 256) scalar point)

def crypto : Crypto := { hmac := hmac, x25519 := x25519 }

/-- The request `r` with the MAC tag a gateway holding the session key of
device `r.DevId` in state `st` would attach. -/
def sign (st : ProcState) (r : AuthReq) : AuthReq :=
  match st.sState r.DevId with
  | none => r
  | some dev =>
    { r with MacTag := hmac dev.Sesskeys.K_gw_s (authMacInput r dev.LastRandomness) }

def key0 : List Nat := List.replicate 32 5

def scan0 : Scan := { SPubGW := key0, Psk := List.range 32 }

def signupReq0 : SignupReq :=
  { Conn := 1, DevType := 1, SPubGW := key0, EPubGw := List.replicate 32 6,
    MacTag := zeros 32, CapURI := [47, 100, 101, 118, 48] }

/-- The state after the scan of `scan0` and the signup of `signupReq0`:
device 0 is registered. -/
def st1 : ProcState :=
  (run crypto ProcState.init [.scan scan0, .signup signupReq0 [] (some (List.replicate 32 3))]).1

/-- The record of device `id` in `st` (a blank record if there is none). -/
def device (st : ProcState) (id : Nat) : DeviceState :=
  (st.sState id).getD
    { Conn := 0, Id := 0, Type_ := 0, rebCnt := 0, reqCnt := 0, CapURI := [],
      LastRandomness := [], Sesskeys := { K_gw_s := [], K_s_gw := [] }, Paired := false,
      ScanData := Scan.zero, Log := [] }

/-- A pairing confirmation for device 0 with the MAC tag valid in `st1`. -/
def dummyReq : AuthReq :=
  sign st1 { DevId := 0, AccessType := DUMMY_REQUEST, RebCnt := 0, ReqCnt := 0, MacTag := [] }

/-- A sensor request for device 0 with counters (2, 5) and the MAC tag valid
in `st1`. -/
def sensorReq : AuthReq :=
  sign st1 { DevId := 0, AccessType := SAMPLE_SENSOR_1, RebCnt := 2, ReqCnt := 5, MacTag := [] }

/-- The nonce the random source delivers while `sensorReq` is handled. -/
def nonce1 : List Nat := List.replicate 16 8

/-- The state after `sensorReq` has been accepted in `st1`: device 0 has
counters (2, 5) and `LastRandomness = nonce1`. -/
def st2 : ProcState := (authStep crypto st1 sensorReq 100 (some nonce1)).state

/-- A request with a request counter below the stored one and the MAC tag
valid in `st2`. -/
def staleReq : AuthReq :=
  sign st2 { DevId := 0, AccessType := SAMPLE_SENSOR_1, RebCnt := 2, ReqCnt := 4, MacTag := [] }

/-- A request with fresh counters and a MAC tag that is not the expected one. -/
def forgedReq : AuthReq :=
  { DevId := 0, AccessType := SAMPLE_SENSOR_0, RebCnt := 3, ReqCnt := 6, MacTag := zeros 32 }

/-- A request with fresh counters and the MAC tag valid in `st2`. -/
def nextReq : AuthReq :=
  sign st2 { DevId := 0, AccessType := CONTROL_ACTUATOR_0, RebCnt := 2, ReqCnt := 6, MacTag := [] }

/-- A pairing confirmation with counters (5, 5) and the MAC tag valid in
`st1`. -/
def dummyHighReq : AuthReq :=
  sign st1 { DevId := 0, AccessType := DUMMY_REQUEST, RebCnt := 5, ReqCnt := 5, MacTag := [] }

/-- A sensor request with counters (1, 1) and the MAC tag valid in `st1`. -/
def lowReq : AuthReq :=
  sign st1 { DevId := 0, AccessType := SAMPLE_SENSOR_0, RebCnt := 1, ReqCnt := 1, MacTag := [] }

/-- What the random source delivers for the ephemeral key of the signups. -/
def rnd0 : Option (List Nat) := some (List.replicate 32 3)

/-- The signup of `signupReq0` with nothing queued in `scanChan`. -/
def signupEv : Event := .signup signupReq0 [] rnd0

/-- A second signup request with the same static key on connection 2. -/
def signupReq1 : SignupReq :=
  { Conn := 2, DevType := 1, SPubGW := key0, EPubGw := List.replicate 32 7,
    MacTag := zeros 32, CapURI := [47, 100, 101, 118, 49] }

/-- A signup request whose static key nobody has scanned. -/
def strangerReq : SignupReq :=
  { Conn := 3, DevType := 1, SPubGW := List.replicate 32 9, EPubGw := List.replicate 32 6,
    MacTag := zeros 32, CapURI := [] }

/-- A scan with the key of `scan0` and another preshared key. -/
def scan0b : Scan := { SPubGW := key0, Psk := List.replicate 32 1 }

/-- A request for device 999. -/
def unknownReq : AuthReq :=
  { DevId := 999, AccessType := SAMPLE_SENSOR_0, RebCnt := 0, ReqCnt := 0, MacTag := zeros 32 }

/-- The value of the stand-in key agreement. -/
def dh (scalar point : List Nat) : List Nat := (x25519 scalar point).getD []

/-- The state after the scan of `scan0` and `n` signups of `signupReq0`. -/
def afterSignups (n : Nat) : ProcState :=
  (run crypto ProcState.init (.scan scan0 :: List.replicate n signupEv)).1

/-- The state after the scan and the signup of the fixture, the accepted
`sensorReq`, and `n` further signups of `signupReq0`. -/
def agedAfter (n : Nat) : ProcState :=
  (run crypto ProcState.init
    ([.scan scan0, signupEv, .auth sensorReq 100 (some nonce1)]
      ++ List.replicate n signupEv)).1

/-- The state after the scan of `scan0` and the signups of `signupReq0` and
`signupReq1`: devices 0 and 1 are registered. -/
def st3 : ProcState :=
  (run crypto ProcState.init [.scan scan0, signupEv, .signup signupReq1 [] rnd0]).1

/-- A sensor request for device 1. -/
def req1 : AuthReq :=
  { DevId := 1, AccessType := SAMPLE_SENSOR_0, RebCnt := 0, ReqCnt := 0, MacTag := zeros 32 }

/-- A key agreement that, like `curve25519.X25519`, returns an error for the
all-zero point (a point of low order) and otherwise the stand-in value. -/
def x25519Strict (scalar point : List Nat) : Option (List Nat) :=
  if point = zeros 32 then none else x25519 scalar point

def cryptoStrict : Crypto := { hmac := hmac, x25519 := x25519Strict }

/-- The request `signupReq0` with the all-zero point as ephemeral key. -/
def zeroPointReq : SignupReq := { signupReq0 with EPubGw := zeros 32 }

/-- The request `signupReq0` with another MAC tag. -/
def signupReq0b : SignupReq := { signupReq0 with MacTag := List.replicate 32 255 }

end Fixture

/-! ## Wire codec: theorems -/

/-- C5 (failing input): the header `[0, 5, 0]` has type code 0 and declares
length 5, below the lower bound 98 that `defs.go` documents for this payload;
`parseHeader` does not reject it but accepts it as `Header{0, 5}`. -/
theorem parseHeader_signup_short_accepted :
    (5 : Nat) < LEN_PAYLOAD_SIGNUP_REQ ∧
    parseHeader [0, 5, 0] = .ok { PayloadType := 0, PayloadLen := 5 } := by
  decide

/-- The guard `payloadType != PAYLOAD_SIGNUP_REQ` exempts type code 0 from the
length test of `parseHeader`: whatever bytes 1-2 are, the result is
`Header{0, length}` with the little-endian length they declare. -/
theorem parseHeader_signup_any_length (b1 b2 : Nat) :
    parseHeader [PAYLOAD_SIGNUP_REQ, b1, b2]
      = .ok { PayloadType := PAYLOAD_SIGNUP_REQ, PayloadLen := b1 + 256 * b2 } := by
  simp [parseHeader, PAYLOAD_SIGNUP_REQ, PAYLOAD_AUTH_REQ, goSliceFrom, leUint16]

theorem leUint16_take_two (p : List Nat) (h : 2 ≤ p.length) :
    ∃ v, leUint16 (List.take 2 p) = some v := by
  match p, h with
  | b0 :: b1 :: rest, _ => exact ⟨_, rfl⟩

/-- On a SignupRequest payload `processPayload` panics exactly when the buffer
is shorter than `LEN_PAYLOAD_SIGNUP_REQ` (98) bytes. -/
theorem processPayload_signup_panicked_iff (conn : Nat) (p : List Nat) :
    processPayload conn p PAYLOAD_SIGNUP_REQ = .panicked ↔ p.length < LEN_PAYLOAD_SIGNUP_REQ := by
  simp only [LEN_PAYLOAD_SIGNUP_REQ, KEY_LEN, HMAC_KEY_LEN, HMAC_OUTPUT_SIZE, SHA256_OUTPUT_SIZE]
  by_cases h : 98 ≤ p.length
  · obtain ⟨v, hv⟩ := leUint16_take_two p (by omega)
    have h1 : (2 : Nat) ≤ 34 ∧ 34 ≤ p.length := ⟨by omega, by omega⟩
    have h2 : (34 : Nat) ≤ 66 ∧ 66 ≤ p.length := ⟨by omega, by omega⟩
    have h3 : (66 : Nat) ≤ 98 ∧ 98 ≤ p.length := ⟨by omega, by omega⟩
    have h4 : (0 : Nat) ≤ 2 ∧ 2 ≤ p.length := ⟨by omega, by omega⟩
    simp [processPayload, goSlice, goSliceFrom, KEY_LEN, HMAC_KEY_LEN, HMAC_OUTPUT_SIZE,
      SHA256_OUTPUT_SIZE, h1, h2, h3, h4, h, hv]
  · have hlt : p.length < 98 := by omega
    simp only [hlt, iff_true]
    unfold processPayload
    simp only [if_true, goSlice, goSliceFrom, KEY_LEN, HMAC_KEY_LEN, HMAC_OUTPUT_SIZE,
      SHA256_OUTPUT_SIZE]
    have h3 : ¬ ((2 + 32 + 32 : Nat) ≤ 2 + 32 + 32 + 32 ∧ 2 + 32 + 32 + 32 ≤ p.length) := by omega
    simp only [h3, if_false]
    split
    · rfl
    · split
      · rfl
      · rfl

/-- On a buffer of at least 14 bytes, so on every AuthRequest payload of the
declared 46 bytes, `parseAuthReq` does not panic. -/
theorem parseAuthReq_not_panicked (p : List Nat) (h : 14 ≤ p.length) :
    parseAuthReq p ≠ .panicked := by
  match p, h with
  | b0 :: b1 :: b2 :: b3 :: b4 :: b5 :: b6 :: b7 :: b8 :: b9 :: b10 :: b11 :: b12 :: b13 :: rest, _ =>
    simp only [parseAuthReq, leUint32, goSliceFrom, DEVICE_ID_LEN, REB_CNT_LEN, REQ_CNT_LEN,
      ACCESS_TYPE_LEN, List.length_cons]
    simp only [show (4 : Nat) ≤ rest.length + 1 + 1 + 1 + 1 + 1 + 1 + 1 + 1 + 1 + 1 + 1 + 1 + 1 + 1
        from by omega,
      show (4 + 4 : Nat) ≤ rest.length + 1 + 1 + 1 + 1 + 1 + 1 + 1 + 1 + 1 + 1 + 1 + 1 + 1 + 1
        from by omega,
      show (4 + 4 + 4 : Nat) ≤ rest.length + 1 + 1 + 1 + 1 + 1 + 1 + 1 + 1 + 1 + 1 + 1 + 1 + 1 + 1
        from by omega,
      show (4 + 4 + 4 + 2 : Nat) ≤ rest.length + 1 + 1 + 1 + 1 + 1 + 1 + 1 + 1 + 1 + 1 + 1 + 1 + 1 + 1
        from by omega,
      if_true, Option.bind, List.drop, leUint32, leUint16]
    split_ifs <;> simp

/-- A header accepted by `parseHeader` with type code 2 declares 46 bytes, and
on a payload of that length `processPayload` does not panic. -/
theorem processPayload_auth_not_panicked (conn : Nat) (p : List Nat)
    (h : p.length = LEN_PAYLOAD_AUTH_REQ) :
    processPayload conn p PAYLOAD_AUTH_REQ ≠ .panicked := by
  have h14 : 14 ≤ p.length := by
    rw [h]; decide
  have hp := parseAuthReq_not_panicked p h14
  unfold processPayload
  simp only [PAYLOAD_AUTH_REQ, PAYLOAD_SIGNUP_REQ]
  cases hq : parseAuthReq p with
  | ok r => simp
  | fail e => simp
  | panicked => exact absurd hq hp

/-- C6 (failing input): the header `[0, 5, 0]` is accepted, and on a payload of
exactly the declared 5 bytes the slice expression `payloadBuf[2:2+KEY_LEN]` of
`processPayload` is out of range: the call panics and the connection task, and
with it the process, ends by that panic. -/
theorem processPayload_short_signup_panics :
    parseHeader [0, 5, 0] = .ok { PayloadType := 0, PayloadLen := 5 } ∧
    processPayload 4 [1, 2, 3, 4, 5] 0 = .panicked ∧
    connHandler 4 [0, 5, 0, 1, 2, 3, 4, 5] = ([], .crashed) := by
  decide

/-- C4 (as stated, refuted): a complete message with type code 1 and one payload
byte, followed by a complete valid AuthRequest message.  The second message
alone is decoded and enqueued; after the first message the loop reads the
payload byte as part of the next header, loses the framing, and enqueues
nothing. -/
theorem connHandler_payload_not_skipped :
    parseHeader [1, 1, 0] = .fail (.InvalidPayloadType 1) ∧
    connHandler 4 ([2, 46, 0] ++ ([2, 1, 0, 0, 0, 0, 0, 0, 0, 0, 0, 0, 1, 0] ++ List.replicate 32 9))
      = ([.auth { DevId := 258, AccessType := 1, RebCnt := 0, ReqCnt := 0,
                  MacTag := List.replicate 32 9 }], .closed) ∧
    connHandler 4 ([1, 1, 0] ++ [7] ++
        ([2, 46, 0] ++ ([2, 1, 0, 0, 0, 0, 0, 0, 0, 0, 0, 0, 1, 0] ++ List.replicate 32 9)))
      = ([], .closed) := by
  decide

/-- C4 (amended): a 3-byte header whose type code is not 0 or 2, with no payload
bytes after it, immediately followed by a complete valid message (header `h`
accepted by `parseHeader`, payload `p` of the declared length, decoded by
`processPayload` to the request `q`): the loop rejects the header and enqueues
exactly `q`. -/
theorem connHandler_skips_bad_header (conn b0 b1 b2 : Nat) (h p : List Nat)
    (hd : Header) (q : Request)
    (hty : b0 ≠ 0 ∧ b0 ≠ 2) (hh : h.length = 3)
    (hhd : parseHeader h = .ok hd) (hp : p.length = hd.PayloadLen)
    (hq : processPayload conn p hd.PayloadType = .ok q) :
    connHandler conn ([b0, b1, b2] ++ h ++ p) = ([q], .closed) := by
  have hbad : parseHeader [b0, b1, b2] = .fail (.InvalidPayloadType b0) := by
    simp [parseHeader, PAYLOAD_SIGNUP_REQ, PAYLOAD_AUTH_REQ, hty.1, hty.2]
  have hfuel : ([b0, b1, b2] ++ h ++ p).length + 1 = (p.length + 4) + 1 + 1 + 1 := by
    simp [hh]; omega
  unfold connHandler
  rw [hfuel]
  have e1 : (b0 :: b1 :: b2 :: (h ++ p)).take 3 = [b0, b1, b2] := rfl
  have e2 : (h ++ p).take 3 = h := by
    rw [← hh]; simp
  have e3 : (h ++ p).drop 3 = p := by
    rw [← hh]; simp
  simp [connLoop, HEADER_LEN, hbad, hh, e2, e3, hhd, hp.symm, hq]

set_option maxRecDepth 100000 in
/-- Witness for the theorem of C4: the header `[1, 1, 0]`
followed by an AuthRequest message. -/
theorem connHandler_skips_bad_header_witness :
    ((1 : Nat) ≠ 0 ∧ (1 : Nat) ≠ 2) ∧
    connHandler 4 ([1, 1, 0] ++ [2, 46, 0]
        ++ ([2, 1, 0, 0, 0, 0, 0, 0, 0, 0, 0, 0, 1, 0] ++ List.replicate 32 9))
      = ([.auth { DevId := 258, AccessType := 1, RebCnt := 0, ReqCnt := 0,
                  MacTag := List.replicate 32 9 }], .closed) :=
  ⟨by decide,
   connHandler_skips_bad_header 4 1 1 0 [2, 46, 0]
     ([2, 1, 0, 0, 0, 0, 0, 0, 0, 0, 0, 0, 1, 0] ++ List.replicate 32 9)
     { PayloadType := 2, PayloadLen := 46 } _ (by decide) (by decide) (by decide) (by decide)
     (by decide)⟩

/-! ## Authentication step: theorems -/

theorem goCopy_zeros_of_length (n : Nat) (src : List Nat) (h : src.length = n) :
    goCopy (zeros n) src = src := by
  subst h
  simp [goCopy, zeros]

theorem authMacInput_of_length (authReq : AuthReq) (lr : List Nat)
    (h : lr.length = 16) :
    authMacInput authReq lr
      = putUint32 authReq.RebCnt ++ putUint32 authReq.ReqCnt
          ++ putUint16 authReq.AccessType ++ lr := by
  simp [authMacInput, RANDOM_LEN, goCopy_zeros_of_length 16 lr h]

/-- The device record after the log entry of step 2 has been appended and
written back. -/
theorem authStep_of_stale (C : Crypto) (st : ProcState) (authReq : AuthReq) (now : Nat)
    (rnd : Option (List Nat)) (dev : DeviceState)
    (hdev : st.sState authReq.DevId = some dev)
    (hstale : authReq.RebCnt < dev.rebCnt ∨ authReq.ReqCnt < dev.reqCnt) :
    ((authStep C st authReq now rnd).branch = .authOldRebCnt
      ∨ (authStep C st authReq now rnd).branch = .authOldReqCnt) ∧
    (authStep C st authReq now rnd).writes = [] ∧
    (authStep C st authReq now rnd).state.sState authReq.DevId
      = some { dev with Log := dev.Log ++
                [{ ArrivalTime := now, DevId := 0, Paired := dev.Paired, AuthReq := authReq }] } := by
  unfold authStep
  simp only [hdev]
  split_ifs with h1 h2 <;> simp_all [ServerState.store]

/-- The auth step on a registered device whose request passes both counter
checks, up to the MAC comparison. -/
theorem authStep_branch_pastMac_iff (C : Crypto) (st : ProcState) (authReq : AuthReq)
    (now : Nat) (rnd : Option (List Nat)) (dev : DeviceState)
    (hdev : st.sState authReq.DevId = some dev)
    (hfresh : dev.rebCnt ≤ authReq.RebCnt ∧ dev.reqCnt ≤ authReq.ReqCnt) :
    (authStep C st authReq now rnd).branch.pastMac = true ↔
      authReq.MacTag = C.hmac dev.Sesskeys.K_gw_s (authMacInput authReq dev.LastRandomness) := by
  have h1 : ¬ authReq.RebCnt < dev.rebCnt := by omega
  have h2 : ¬ authReq.ReqCnt < dev.reqCnt := by omega
  unfold authStep
  simp only [hdev, h1, h2, if_false, constantTimeCompare]
  by_cases hm : C.hmac dev.Sesskeys.K_gw_s (authMacInput authReq dev.LastRandomness)
      = authReq.MacTag
  · simp only [hm, if_true]
    by_cases hd : authReq.AccessType = DUMMY_REQUEST
    · simp [hd, Branch.pastMac]
    · cases rnd <;> simp [hd, Branch.pastMac]
  · have hm2 : ¬ authReq.MacTag
        = C.hmac dev.Sesskeys.K_gw_s (authMacInput authReq dev.LastRandomness) :=
      fun h => hm h.symm
    simp [hm, hm2, Branch.pastMac]

theorem authStep_of_badMac (C : Crypto) (st : ProcState) (authReq : AuthReq)
    (now : Nat) (rnd : Option (List Nat)) (dev : DeviceState)
    (hdev : st.sState authReq.DevId = some dev)
    (hfresh : dev.rebCnt ≤ authReq.RebCnt ∧ dev.reqCnt ≤ authReq.ReqCnt)
    (hmac : authReq.MacTag
      ≠ C.hmac dev.Sesskeys.K_gw_s (authMacInput authReq dev.LastRandomness)) :
    (authStep C st authReq now rnd).branch = .authBadMac ∧
    (authStep C st authReq now rnd).writes = [] ∧
    (authStep C st authReq now rnd).state.sState authReq.DevId
      = some { dev with Log := dev.Log ++
                [{ ArrivalTime := now, DevId := 0, Paired := dev.Paired, AuthReq := authReq }] } := by
  have h1 : ¬ authReq.RebCnt < dev.rebCnt := by omega
  have h2 : ¬ authReq.ReqCnt < dev.reqCnt := by omega
  have hm : ¬ C.hmac dev.Sesskeys.K_gw_s (authMacInput authReq dev.LastRandomness)
      = authReq.MacTag := fun h => hmac h.symm
  unfold authStep
  simp [hdev, h1, h2, constantTimeCompare, hm, ServerState.store]

theorem authStep_of_dummy (C : Crypto) (st : ProcState) (authReq : AuthReq)
    (now : Nat) (rnd : Option (List Nat)) (dev : DeviceState)
    (hdev : st.sState authReq.DevId = some dev)
    (hfresh : dev.rebCnt ≤ authReq.RebCnt ∧ dev.reqCnt ≤ authReq.ReqCnt)
    (hmac : authReq.MacTag
      = C.hmac dev.Sesskeys.K_gw_s (authMacInput authReq dev.LastRandomness))
    (hdummy : authReq.AccessType = DUMMY_REQUEST) :
    (authStep C st authReq now rnd).branch = .authDummy ∧
    (authStep C st authReq now rnd).writes = [] ∧
    (authStep C st authReq now rnd).state.sState authReq.DevId
      = some { dev with Log := dev.Log ++
                [{ ArrivalTime := now, DevId := 0, Paired := dev.Paired, AuthReq := authReq }] } := by
  have h1 : ¬ authReq.RebCnt < dev.rebCnt := by omega
  have h2 : ¬ authReq.ReqCnt < dev.reqCnt := by omega
  unfold authStep
  simp [hdev, h1, h2, constantTimeCompare, hmac.symm, hdummy, ServerState.store]

theorem authStep_of_accepted (C : Crypto) (st : ProcState) (authReq : AuthReq)
    (now : Nat) (N : List Nat) (dev : DeviceState)
    (hdev : st.sState authReq.DevId = some dev)
    (hfresh : dev.rebCnt ≤ authReq.RebCnt ∧ dev.reqCnt ≤ authReq.ReqCnt)
    (hmac : authReq.MacTag
      = C.hmac dev.Sesskeys.K_gw_s (authMacInput authReq dev.LastRandomness))
    (hreal : authReq.AccessType ≠ DUMMY_REQUEST) (hN : N.length = 16) :
    (authStep C st authReq now (some N)).branch = .authResponded ∧
    (authStep C st authReq now (some N)).writes.length = 1 ∧
    (authStep C st authReq now (some N)).state.sState authReq.DevId
      = some { dev with
                Log := dev.Log ++
                  [{ ArrivalTime := now, DevId := 0, Paired := dev.Paired, AuthReq := authReq }],
                rebCnt := authReq.RebCnt, reqCnt := authReq.ReqCnt, LastRandomness := N } := by
  have h1 : ¬ authReq.RebCnt < dev.rebCnt := by omega
  have h2 : ¬ authReq.ReqCnt < dev.reqCnt := by omega
  have hc : goCopy (zeros RANDOM_LEN) N = N := goCopy_zeros_of_length 16 N hN
  have ht : ∀ l : List Nat, List.take RANDOM_LEN (N ++ l) = N := by
    intro l
    rw [List.take_append_of_le_length (by simp [RANDOM_LEN, hN])]
    rw [List.take_of_length_le]; simp [RANDOM_LEN, hN]
  unfold authStep
  simp [hdev, h1, h2, constantTimeCompare, hmac.symm, hreal, ServerState.store, hc, ht]

/-- C8: a request whose reboot counter or whose request counter is below the
stored one is rejected at the counter checks, whatever its MAC tag: nothing is
written, and the stored record differs from the old one in its log only, so
counters, `LastRandomness` and `Paired` are as before. -/
theorem auth_stale_request_rejected (C : Crypto) (st : ProcState) (authReq : AuthReq)
    (now : Nat) (rnd : Option (List Nat)) (dev : DeviceState)
    (hdev : st.sState authReq.DevId = some dev)
    (hstale : authReq.RebCnt < dev.rebCnt ∨ authReq.ReqCnt < dev.reqCnt) :
    ((authStep C st authReq now rnd).branch = .authOldRebCnt
      ∨ (authStep C st authReq now rnd).branch = .authOldReqCnt) ∧
    (authStep C st authReq now rnd).writes = [] ∧
    ∃ dev2, (authStep C st authReq now rnd).state.sState authReq.DevId = some dev2 ∧
      dev2.rebCnt = dev.rebCnt ∧ dev2.reqCnt = dev.reqCnt ∧
      dev2.LastRandomness = dev.LastRandomness ∧ dev2.Paired = dev.Paired := by
  obtain ⟨hb, hw, hs⟩ := authStep_of_stale C st authReq now rnd dev hdev hstale
  exact ⟨hb, hw, _, hs, rfl, rfl, rfl, rfl⟩

set_option maxRecDepth 100000 in
/-- Witness for the theorem of C8: in `Fixture.st2` device 0 has
request counter 5, and `Fixture.staleReq` has request counter 4 and the MAC tag
that is valid for it. -/
theorem auth_stale_request_rejected_witness :
    (Fixture.st2.sState Fixture.staleReq.DevId = some (Fixture.device Fixture.st2 0) ∧
     (Fixture.staleReq.RebCnt < (Fixture.device Fixture.st2 0).rebCnt
       ∨ Fixture.staleReq.ReqCnt < (Fixture.device Fixture.st2 0).reqCnt) ∧
     Fixture.staleReq.MacTag
       = Fixture.crypto.hmac (Fixture.device Fixture.st2 0).Sesskeys.K_gw_s
           (authMacInput Fixture.staleReq (Fixture.device Fixture.st2 0).LastRandomness)) ∧
    (((authStep Fixture.crypto Fixture.st2 Fixture.staleReq 101 (some Fixture.nonce1)).branch
        = .authOldRebCnt
      ∨ (authStep Fixture.crypto Fixture.st2 Fixture.staleReq 101 (some Fixture.nonce1)).branch
        = .authOldReqCnt) ∧
     (authStep Fixture.crypto Fixture.st2 Fixture.staleReq 101 (some Fixture.nonce1)).writes = [] ∧
     ∃ dev2,
      (authStep Fixture.crypto Fixture.st2 Fixture.staleReq 101
        (some Fixture.nonce1)).state.sState Fixture.staleReq.DevId = some dev2 ∧
      dev2.rebCnt = (Fixture.device Fixture.st2 0).rebCnt ∧
      dev2.reqCnt = (Fixture.device Fixture.st2 0).reqCnt ∧
      dev2.LastRandomness = (Fixture.device Fixture.st2 0).LastRandomness ∧
      dev2.Paired = (Fixture.device Fixture.st2 0).Paired) :=
  ⟨by decide,
   auth_stale_request_rejected Fixture.crypto Fixture.st2 Fixture.staleReq 101
     (some Fixture.nonce1) (Fixture.device Fixture.st2 0) (by decide) (by decide)⟩

/-- C7: a request that passes the counter checks gets past the MAC comparison
if and only if its tag is HMAC(K_gw_s, rebCnt(4,LE) ‖ reqCnt(4,LE) ‖
accessType(2,LE) ‖ stored LastRandomness); otherwise it is rejected, nothing is
written, and counters, `LastRandomness`, `Paired` and the session keys of the
stored record are as before. -/
theorem auth_mac_verification (C : Crypto) (st : ProcState) (authReq : AuthReq)
    (now : Nat) (rnd : Option (List Nat)) (dev : DeviceState)
    (hdev : st.sState authReq.DevId = some dev)
    (hlr : dev.LastRandomness.length = 16)
    (hfresh : dev.rebCnt ≤ authReq.RebCnt ∧ dev.reqCnt ≤ authReq.ReqCnt) :
    ((authStep C st authReq now rnd).branch.pastMac = true ↔
      authReq.MacTag = C.hmac dev.Sesskeys.K_gw_s
        (putUint32 authReq.RebCnt ++ putUint32 authReq.ReqCnt
          ++ putUint16 authReq.AccessType ++ dev.LastRandomness)) ∧
    (authReq.MacTag = C.hmac dev.Sesskeys.K_gw_s
        (putUint32 authReq.RebCnt ++ putUint32 authReq.ReqCnt
          ++ putUint16 authReq.AccessType ++ dev.LastRandomness)
      ∨ ((authStep C st authReq now rnd).branch = .authBadMac ∧
         (authStep C st authReq now rnd).writes = [] ∧
         ∃ dev2, (authStep C st authReq now rnd).state.sState authReq.DevId = some dev2 ∧
           dev2.rebCnt = dev.rebCnt ∧ dev2.reqCnt = dev.reqCnt ∧
           dev2.LastRandomness = dev.LastRandomness ∧ dev2.Paired = dev.Paired ∧
           dev2.Sesskeys = dev.Sesskeys)) := by
  rw [← authMacInput_of_length authReq dev.LastRandomness hlr]
  refine ⟨authStep_branch_pastMac_iff C st authReq now rnd dev hdev hfresh, ?_⟩
  by_cases hm : authReq.MacTag
      = C.hmac dev.Sesskeys.K_gw_s (authMacInput authReq dev.LastRandomness)
  · exact Or.inl hm
  · obtain ⟨hb, hw, hs⟩ := authStep_of_badMac C st authReq now rnd dev hdev hfresh hm
    exact Or.inr ⟨hb, hw, _, hs, rfl, rfl, rfl, rfl, rfl⟩

set_option maxRecDepth 100000 in
/-- Witness for the theorem of C7: `Fixture.forgedReq` has fresh counters
and a tag of 32 zero bytes, which is not the expected HMAC; it ends in the
bad-MAC branch. -/
theorem auth_mac_verification_witness :
    (Fixture.st2.sState Fixture.forgedReq.DevId = some (Fixture.device Fixture.st2 0) ∧
     (Fixture.device Fixture.st2 0).LastRandomness.length = 16 ∧
     ((Fixture.device Fixture.st2 0).rebCnt ≤ Fixture.forgedReq.RebCnt ∧
      (Fixture.device Fixture.st2 0).reqCnt ≤ Fixture.forgedReq.ReqCnt)) ∧
    (authStep Fixture.crypto Fixture.st2 Fixture.forgedReq 102 none).branch = .authBadMac ∧
    (((authStep Fixture.crypto Fixture.st2 Fixture.forgedReq 102 none).branch.pastMac = true ↔
      Fixture.forgedReq.MacTag
        = Fixture.crypto.hmac (Fixture.device Fixture.st2 0).Sesskeys.K_gw_s
            (putUint32 Fixture.forgedReq.RebCnt ++ putUint32 Fixture.forgedReq.ReqCnt
              ++ putUint16 Fixture.forgedReq.AccessType
              ++ (Fixture.device Fixture.st2 0).LastRandomness))) :=
  ⟨by decide, by decide,
   (auth_mac_verification Fixture.crypto Fixture.st2 Fixture.forgedReq 102 none
     (Fixture.device Fixture.st2 0) (by decide) (by decide) (by decide)).1⟩

/-- C10: an accepted non-dummy request (fresh counters, valid tag, access type
in 0..3) handled with the 16-byte nonce `N` leaves the record with the
request's counters and `LastRandomness = N`; a following request of the device
that passes the counter checks gets past the MAC comparison if and only if its
tag is the HMAC over its counters, its access type and `N`. -/
theorem auth_accepted_rotates_challenge (C : Crypto) (st : ProcState) (authReq : AuthReq)
    (now : Nat) (N : List Nat) (dev : DeviceState)
    (hdev : st.sState authReq.DevId = some dev)
    (hlr : dev.LastRandomness.length = 16)
    (hfresh : dev.rebCnt ≤ authReq.RebCnt ∧ dev.reqCnt ≤ authReq.ReqCnt)
    (hmac : authReq.MacTag = C.hmac dev.Sesskeys.K_gw_s
        (putUint32 authReq.RebCnt ++ putUint32 authReq.ReqCnt
          ++ putUint16 authReq.AccessType ++ dev.LastRandomness))
    (hat : authReq.AccessType ≤ CONTROL_ACTUATOR_1) (hN : N.length = 16) :
    (authStep C st authReq now (some N)).branch = .authResponded ∧
    (∃ dev2, (authStep C st authReq now (some N)).state.sState authReq.DevId = some dev2 ∧
      dev2.rebCnt = authReq.RebCnt ∧ dev2.reqCnt = authReq.ReqCnt ∧
      dev2.LastRandomness = N ∧ dev2.Sesskeys = dev.Sesskeys) ∧
    ∀ (next : AuthReq) (now2 : Nat) (rnd2 : Option (List Nat)),
      next.DevId = authReq.DevId →
      authReq.RebCnt ≤ next.RebCnt ∧ authReq.ReqCnt ≤ next.ReqCnt →
      ((authStep C (authStep C st authReq now (some N)).state next now2 rnd2).branch.pastMac
          = true ↔
        next.MacTag = C.hmac dev.Sesskeys.K_gw_s
          (putUint32 next.RebCnt ++ putUint32 next.ReqCnt
            ++ putUint16 next.AccessType ++ N)) := by
  rw [← authMacInput_of_length authReq dev.LastRandomness hlr] at hmac
  have hreal : authReq.AccessType ≠ DUMMY_REQUEST := by
    simp only [CONTROL_ACTUATOR_1, DUMMY_REQUEST] at *
    omega
  obtain ⟨hb, _, hs⟩ := authStep_of_accepted C st authReq now N dev hdev hfresh hmac hreal hN
  refine ⟨hb, ⟨_, hs, rfl, rfl, rfl, rfl⟩, ?_⟩
  intro next now2 rnd2 hid hnext
  rw [← hid] at hs
  have h := authStep_branch_pastMac_iff C _ next now2 rnd2 _ hs hnext
  rw [authMacInput_of_length next N hN] at h
  exact h

set_option maxRecDepth 100000 in
/-- Witness for the theorem of C10: `Fixture.sensorReq` is
accepted in `Fixture.st1` with nonce `Fixture.nonce1`; afterwards
`Fixture.nextReq`, whose tag is computed over `Fixture.nonce1`, gets past the
MAC comparison. -/
theorem auth_accepted_rotates_challenge_witness :
    (Fixture.st1.sState Fixture.sensorReq.DevId = some (Fixture.device Fixture.st1 0) ∧
     (Fixture.device Fixture.st1 0).LastRandomness.length = 16 ∧
     ((Fixture.device Fixture.st1 0).rebCnt ≤ Fixture.sensorReq.RebCnt ∧
      (Fixture.device Fixture.st1 0).reqCnt ≤ Fixture.sensorReq.ReqCnt) ∧
     Fixture.sensorReq.MacTag
       = Fixture.crypto.hmac (Fixture.device Fixture.st1 0).Sesskeys.K_gw_s
          (putUint32 Fixture.sensorReq.RebCnt ++ putUint32 Fixture.sensorReq.ReqCnt
            ++ putUint16 Fixture.sensorReq.AccessType
            ++ (Fixture.device Fixture.st1 0).LastRandomness) ∧
     Fixture.sensorReq.AccessType ≤ CONTROL_ACTUATOR_1 ∧ Fixture.nonce1.length = 16) ∧
    (authStep Fixture.crypto Fixture.st1 Fixture.sensorReq 100 (some Fixture.nonce1)).branch
      = .authResponded ∧
    (authStep Fixture.crypto
        (authStep Fixture.crypto Fixture.st1 Fixture.sensorReq 100 (some Fixture.nonce1)).state
        Fixture.nextReq 103 none).branch.pastMac = true :=
  have h := auth_accepted_rotates_challenge Fixture.crypto Fixture.st1 Fixture.sensorReq 100
    Fixture.nonce1 (Fixture.device Fixture.st1 0) (by decide) (by decide) (by decide)
    (by decide) (by decide) (by decide)
  ⟨by decide, h.1, (h.2.2 Fixture.nextReq 103 none (by decide) (by decide)).mpr (by decide)⟩

set_option maxRecDepth 100000 in
/-- C3 (as stated, refuted): in `Fixture.st1` device 0 has `LastRandomness` of
16 zero bytes.  `Fixture.sensorReq` is accepted while the random source
delivers 16 zero bytes; the identical request, submitted again as the next
event, passes the counter checks (its counters equal the stored ones), passes
the MAC comparison and is answered. -/
theorem auth_replay_accepted_when_nonce_repeats :
    (authStep Fixture.crypto Fixture.st1 Fixture.sensorReq 100 (some (zeros 16))).branch
      = .authResponded ∧
    (authStep Fixture.crypto
        (authStep Fixture.crypto Fixture.st1 Fixture.sensorReq 100 (some (zeros 16))).state
        Fixture.sensorReq 101 (some (zeros 16))).branch = .authResponded ∧
    (authStep Fixture.crypto
        (authStep Fixture.crypto Fixture.st1 Fixture.sensorReq 100 (some (zeros 16))).state
        Fixture.sensorReq 101 (some (zeros 16))).writes.length = 1 := by
  decide

/-- C3 (amended): a non-dummy request is accepted with nonce `N` (fresh
counters, valid tag) and the identical request is the next event.  The second
request passes the counter checks, and it is rejected by the MAC comparison
provided the HMAC over its counters, its access type and `N` differs from its
tag: then nothing is written and counters and `LastRandomness` stay those set by
the first request. -/
theorem auth_replay_rejected_by_mac (C : Crypto) (st : ProcState) (authReq : AuthReq)
    (now now2 : Nat) (N : List Nat) (rnd2 : Option (List Nat)) (dev : DeviceState)
    (hdev : st.sState authReq.DevId = some dev)
    (hlr : dev.LastRandomness.length = 16)
    (hfresh : dev.rebCnt ≤ authReq.RebCnt ∧ dev.reqCnt ≤ authReq.ReqCnt)
    (hmac : authReq.MacTag = C.hmac dev.Sesskeys.K_gw_s
        (putUint32 authReq.RebCnt ++ putUint32 authReq.ReqCnt
          ++ putUint16 authReq.AccessType ++ dev.LastRandomness))
    (hreal : authReq.AccessType ≠ DUMMY_REQUEST) (hN : N.length = 16)
    (hnew : authReq.MacTag ≠ C.hmac dev.Sesskeys.K_gw_s
        (putUint32 authReq.RebCnt ++ putUint32 authReq.ReqCnt
          ++ putUint16 authReq.AccessType ++ N)) :
    (authStep C st authReq now (some N)).branch = .authResponded ∧
    (authStep C st authReq now (some N)).writes.length = 1 ∧
    (authStep C (authStep C st authReq now (some N)).state authReq now2 rnd2).branch
      = .authBadMac ∧
    (authStep C (authStep C st authReq now (some N)).state authReq now2 rnd2).writes = [] ∧
    ∃ dev3,
      (authStep C (authStep C st authReq now (some N)).state authReq now2 rnd2).state.sState
        authReq.DevId = some dev3 ∧
      dev3.rebCnt = authReq.RebCnt ∧ dev3.reqCnt = authReq.ReqCnt ∧
      dev3.LastRandomness = N := by
  rw [← authMacInput_of_length authReq dev.LastRandomness hlr] at hmac
  rw [← authMacInput_of_length authReq N hN] at hnew
  obtain ⟨hb, hw, hs⟩ := authStep_of_accepted C st authReq now N dev hdev hfresh hmac hreal hN
  obtain ⟨hb2, hw2, hs2⟩ := authStep_of_badMac C _ authReq now2 rnd2 _ hs
    ⟨Nat.le_refl _, Nat.le_refl _⟩ hnew
  exact ⟨hb, hw, hb2, hw2, _, hs2, rfl, rfl, rfl⟩

set_option maxRecDepth 100000 in
/-- Witness for the theorem of C3: `Fixture.sensorReq` accepted in
`Fixture.st1` with nonce `Fixture.nonce1` and then submitted again. -/
theorem auth_replay_rejected_by_mac_witness :
    (Fixture.st1.sState Fixture.sensorReq.DevId = some (Fixture.device Fixture.st1 0) ∧
     (Fixture.device Fixture.st1 0).LastRandomness.length = 16 ∧
     ((Fixture.device Fixture.st1 0).rebCnt ≤ Fixture.sensorReq.RebCnt ∧
      (Fixture.device Fixture.st1 0).reqCnt ≤ Fixture.sensorReq.ReqCnt) ∧
     Fixture.sensorReq.MacTag
       = Fixture.crypto.hmac (Fixture.device Fixture.st1 0).Sesskeys.K_gw_s
          (putUint32 Fixture.sensorReq.RebCnt ++ putUint32 Fixture.sensorReq.ReqCnt
            ++ putUint16 Fixture.sensorReq.AccessType
            ++ (Fixture.device Fixture.st1 0).LastRandomness) ∧
     Fixture.sensorReq.AccessType ≠ DUMMY_REQUEST ∧ Fixture.nonce1.length = 16 ∧
     Fixture.sensorReq.MacTag
       ≠ Fixture.crypto.hmac (Fixture.device Fixture.st1 0).Sesskeys.K_gw_s
          (putUint32 Fixture.sensorReq.RebCnt ++ putUint32 Fixture.sensorReq.ReqCnt
            ++ putUint16 Fixture.sensorReq.AccessType ++ Fixture.nonce1)) ∧
    (authStep Fixture.crypto
        (authStep Fixture.crypto Fixture.st1 Fixture.sensorReq 100 (some Fixture.nonce1)).state
        Fixture.sensorReq 101 (some Fixture.nonce1)).branch = .authBadMac ∧
    (authStep Fixture.crypto
        (authStep Fixture.crypto Fixture.st1 Fixture.sensorReq 100 (some Fixture.nonce1)).state
        Fixture.sensorReq 101 (some Fixture.nonce1)).writes = [] :=
  have h := auth_replay_rejected_by_mac Fixture.crypto Fixture.st1 Fixture.sensorReq 100 101
    Fixture.nonce1 (some Fixture.nonce1) (Fixture.device Fixture.st1 0) (by decide) (by decide)
    (by decide) (by decide) (by decide) (by decide) (by decide)
  ⟨by decide, h.2.2.1, h.2.2.2.1⟩

set_option maxRecDepth 100000 in
/-- C1 (failing input): device 0 of `Fixture.st1` is registered with
`Paired = false`.  `Fixture.dummyReq` has access type 0x69, fresh counters and
the valid MAC tag.  The auth step reaches the dummy branch and writes nothing,
counters and `LastRandomness` are as before, and the record of device 0 in the
registry still has `Paired = false`. -/
theorem auth_dummy_paired_not_stored :
    Fixture.st1.sState 0 = some (Fixture.device Fixture.st1 0) ∧
    (Fixture.device Fixture.st1 0).Paired = false ∧
    Fixture.dummyReq.AccessType = 0x69 ∧
    Fixture.dummyReq.MacTag
      = Fixture.crypto.hmac (Fixture.device Fixture.st1 0).Sesskeys.K_gw_s
          (putUint32 0 ++ putUint32 0 ++ putUint16 0x69
            ++ (Fixture.device Fixture.st1 0).LastRandomness) ∧
    (authStep Fixture.crypto Fixture.st1 Fixture.dummyReq 7 none).branch = .authDummy ∧
    (authStep Fixture.crypto Fixture.st1 Fixture.dummyReq 7 none).writes = [] ∧
    ((authStep Fixture.crypto Fixture.st1 Fixture.dummyReq 7 none).state.sState 0).map
        (fun d => (d.Paired, d.rebCnt, d.reqCnt, d.LastRandomness))
      = some (false, 0, 0, zeros 16) := by
  decide

/-! ## The scan registry and the signup step: theorems -/

/-- What the inner loop of the signup case leaves in the registry: entries
present before are kept, and every other key received from the queue is
mapped to the zero `Scan`. -/
theorem drainScans_apply (scans : Scans) (queued : List Scan) (k : List Nat) :
    drainScans scans queued k
      = if (scans k).isSome then scans k
        else if k ∈ queued.map Scan.SPubGW then some Scan.zero else none := by
  induction queued generalizing scans with
  | nil => cases h : scans k <;> simp [drainScans, h]
  | cons r q ih =>
    unfold drainScans
    cases hr : scans r.SPubGW with
    | some v =>
      simp only [Scans.lookup, hr, if_true]
      rw [ih]
      cases hk : scans k with
      | some w => simp
      | none =>
        have hne : k ≠ r.SPubGW := by
          intro h; rw [h, hr] at hk; cases hk
        simp [hne]
    | none =>
      simp only [Scans.lookup, hr, Bool.false_eq_true, if_false]
      rw [ih]
      by_cases hk : k = r.SPubGW
      · subst hk
        simp [Scans.store, hr]
      · cases hs : scans k <;> simp [Scans.store, hk, hs]

/-- The scan event of the main select is the insert of the spec. -/
theorem scanStep_scans_eq_insertSpec (st : ProcState) (scan : Scan) :
    (scanStep st scan).state.scans = insertSpec st.scans scan := by
  unfold scanStep insertSpec Scans.lookup
  cases h : st.scans scan.SPubGW <;> simp [h]

set_option maxRecDepth 100000 in
/-- C2 (failing input): the registry is empty, the queue holds `Fixture.scan0`
(key `Fixture.key0`, preshared key 0x00..0x1f) and the signup request has the
same static key.  The ordinary scan event, and the drain as the spec words
it, store `Fixture.scan0`; the inner loop of the signup case stores the zero
`Scan` under that key.  The signup
goes through with it: the committed record has the zero `Scan` as `ScanData`,
and record and response are those of a signup against a registry holding the
zero `Scan`, not those of a signup after the ordinary scan event. -/
theorem signup_drain_stores_zero_scan :
    (scanStep ProcState.init Fixture.scan0).state.scans Fixture.key0 = some Fixture.scan0 ∧
    drainSpec ProcState.init.scans [Fixture.scan0] Fixture.key0 = some Fixture.scan0 ∧
    drainScans ProcState.init.scans [Fixture.scan0] Fixture.key0 = some Scan.zero ∧
    Scan.zero.Psk ≠ Fixture.scan0.Psk ∧
    (signupStep Fixture.crypto ProcState.init Fixture.signupReq0 [Fixture.scan0]
        (some (List.replicate 32 3))).branch = .signupDone ∧
    (signupStep Fixture.crypto ProcState.init Fixture.signupReq0 [Fixture.scan0]
        (some (List.replicate 32 3))).state.scans Fixture.key0 = some Scan.zero ∧
    ((signupStep Fixture.crypto ProcState.init Fixture.signupReq0 [Fixture.scan0]
        (some (List.replicate 32 3))).state.sState 0).map DeviceState.ScanData
      = some Scan.zero ∧
    (signupStep Fixture.crypto ProcState.init Fixture.signupReq0 [Fixture.scan0]
        (some (List.replicate 32 3))).state.sState 0
      = (signupStep Fixture.crypto
          { ProcState.init with scans := ProcState.init.scans.store Fixture.key0 Scan.zero }
          Fixture.signupReq0 [] (some (List.replicate 32 3))).state.sState 0 ∧
    (signupStep Fixture.crypto ProcState.init Fixture.signupReq0 [Fixture.scan0]
        (some (List.replicate 32 3))).writes
      = (signupStep Fixture.crypto
          { ProcState.init with scans := ProcState.init.scans.store Fixture.key0 Scan.zero }
          Fixture.signupReq0 [] (some (List.replicate 32 3))).writes ∧
    (signupStep Fixture.crypto ProcState.init Fixture.signupReq0 [Fixture.scan0]
        (some (List.replicate 32 3))).state.sState 0
      ≠ (signupStep Fixture.crypto (scanStep ProcState.init Fixture.scan0).state
          Fixture.signupReq0 [] (some (List.replicate 32 3))).state.sState 0 ∧
    (signupStep Fixture.crypto ProcState.init Fixture.signupReq0 [Fixture.scan0]
        (some (List.replicate 32 3))).writes
      ≠ (signupStep Fixture.crypto (scanStep ProcState.init Fixture.scan0).state
          Fixture.signupReq0 [] (some (List.replicate 32 3))).writes := by
  decide

/-! ## Runs of the event loop: invariants -/

theorem scanStep_sState (st : ProcState) (scan : Scan) :
    (scanStep st scan).state.sState = st.sState ∧
    (scanStep st scan).state.nextDevId = st.nextDevId := by
  unfold scanStep
  simp only []
  split_ifs <;> simp

theorem authStep_nextDevId (C : Crypto) (st : ProcState) (authReq : AuthReq) (now : Nat)
    (rnd : Option (List Nat)) :
    (authStep C st authReq now rnd).state.nextDevId = st.nextDevId ∧
    (authStep C st authReq now rnd).state.scans = st.scans := by
  cases hdev : st.sState authReq.DevId with
  | none => unfold authStep; simp [hdev]
  | some dev =>
    unfold authStep
    simp only [hdev]
    split_ifs
    · simp
    · simp
    · simp
    · simp
    · cases rnd <;> simp

theorem authStep_sState_other (C : Crypto) (st : ProcState) (authReq : AuthReq) (now : Nat)
    (rnd : Option (List Nat)) (id : Nat) (hid : id ≠ authReq.DevId) :
    (authStep C st authReq now rnd).state.sState id = st.sState id := by
  cases hdev : st.sState authReq.DevId with
  | none => unfold authStep; simp [hdev]
  | some dev =>
    unfold authStep
    simp only [hdev]
    split_ifs
    · simp [ServerState.store, hid]
    · simp [ServerState.store, hid]
    · simp [ServerState.store, hid]
    · simp [ServerState.store, hid]
    · cases rnd <;> simp [ServerState.store, hid]

theorem ServerState.store_self (s : ServerState) (k : Nat) (v : DeviceState) :
    (s.store k v) k = some v := by
  simp [ServerState.store]

theorem authStep_sState_self (C : Crypto) (st : ProcState) (authReq : AuthReq) (now : Nat)
    (rnd : Option (List Nat)) (dev : DeviceState)
    (hdev : st.sState authReq.DevId = some dev) :
    ∃ dev2, (authStep C st authReq now rnd).state.sState authReq.DevId = some dev2 ∧
      dev.rebCnt ≤ dev2.rebCnt ∧ dev.reqCnt ≤ dev2.reqCnt := by
  unfold authStep
  simp only [hdev]
  split_ifs with h1 h2 h3 h4
  · exact ⟨_, ServerState.store_self _ _ _, Nat.le_refl _, Nat.le_refl _⟩
  · exact ⟨_, ServerState.store_self _ _ _, Nat.le_refl _, Nat.le_refl _⟩
  · exact ⟨_, ServerState.store_self _ _ _, Nat.le_refl _, Nat.le_refl _⟩
  · exact ⟨_, ServerState.store_self _ _ _, Nat.le_refl _, Nat.le_refl _⟩
  · cases rnd with
    | none => exact ⟨_, ServerState.store_self _ _ _, Nat.le_refl _, Nat.le_refl _⟩
    | some r =>
      exact ⟨_, ServerState.store_self _ _ _, Nat.le_of_not_lt h1, Nat.le_of_not_lt h2⟩

theorem authStep_countersLe (C : Crypto) (st : ProcState) (authReq : AuthReq) (now : Nat)
    (rnd : Option (List Nat)) :
    CountersLe st.sState (authStep C st authReq now rnd).state.sState := by
  intro id dev hdev
  by_cases hid : id = authReq.DevId
  · subst hid
    exact authStep_sState_self C st authReq now rnd dev hdev
  · exact ⟨dev, by rw [authStep_sState_other C st authReq now rnd id hid]; exact hdev,
      Nat.le_refl _, Nat.le_refl _⟩

theorem authStep_idsBelowNext (C : Crypto) (st : ProcState) (authReq : AuthReq) (now : Nat)
    (rnd : Option (List Nat)) (hinv : IdsBelowNext st) :
    IdsBelowNext (authStep C st authReq now rnd).state := by
  intro id dev2 h2
  rw [(authStep_nextDevId C st authReq now rnd).1]
  by_cases hid : id = authReq.DevId
  · subst hid
    cases hdev : st.sState authReq.DevId with
    | some dev => exact hinv _ dev hdev
    | none =>
      have : (authStep C st authReq now rnd).state = st := by
        unfold authStep; simp [hdev]
      rw [this, hdev] at h2
      cases h2
  · rw [authStep_sState_other C st authReq now rnd id hid] at h2
    exact hinv id dev2 h2

/-- The signup step leaves the device registry and the id counter as they
are, or stores one new record, with both counters 0, under the old value of
the counter and advances the counter by one modulo 2^32. -/
theorem signupStep_sState (C : Crypto) (st : ProcState) (signupReq : SignupReq)
    (queued : List Scan) (rnd : Option (List Nat)) :
    ((signupStep C st signupReq queued rnd).state.sState = st.sState ∧
      (signupStep C st signupReq queued rnd).state.nextDevId = st.nextDevId) ∨
    (∃ d, (signupStep C st signupReq queued rnd).state.sState
            = st.sState.store st.nextDevId d ∧
      (signupStep C st signupReq queued rnd).state.nextDevId = (st.nextDevId + 1) % 2 ^ 32 ∧
      d.rebCnt = 0 ∧ d.reqCnt = 0) := by
  unfold signupStep
  simp only []
  repeat' split
  all_goals first
    | exact Or.inl ⟨rfl, rfl⟩
    | exact Or.inr ⟨_, rfl, rfl, rfl, rfl⟩

theorem step_invariant (C : Crypto) (st : ProcState) (e : Event)
    (hinv : IdsBelowNext st) (hnext : st.nextDevId + 1 < 2 ^ 32) :
    IdsBelowNext (step C st e).state ∧
    (step C st e).state.nextDevId ≤ st.nextDevId + 1 ∧
    CountersLe st.sState (step C st e).state.sState := by
  cases e with
  | scan scan =>
    obtain ⟨hs, hn⟩ := scanStep_sState st scan
    refine ⟨?_, ?_, ?_⟩
    · intro id dev h
      simp only [step] at h ⊢
      rw [hs] at h; rw [hn]; exact hinv id dev h
    · simp only [step]; omega
    · intro id dev h
      simp only [step]
      rw [hs]; exact ⟨dev, h, Nat.le_refl _, Nat.le_refl _⟩
  | auth authReq now rnd =>
    refine ⟨authStep_idsBelowNext C st authReq now rnd hinv, ?_,
      authStep_countersLe C st authReq now rnd⟩
    simp only [step]
    rw [(authStep_nextDevId C st authReq now rnd).1]; omega
  | signup signupReq queued rnd =>
    simp only [step]
    rcases signupStep_sState C st signupReq queued rnd with ⟨hs, hn⟩ | ⟨d, hs, hn, _, _⟩
    · refine ⟨?_, by omega, ?_⟩
      · intro id dev h
        rw [hs] at h; rw [hn]; exact hinv id dev h
      · intro id dev h
        rw [hs]; exact ⟨dev, h, Nat.le_refl _, Nat.le_refl _⟩
    · have hmod : (st.nextDevId + 1) % 2 ^ 32 = st.nextDevId + 1 := Nat.mod_eq_of_lt hnext
      rw [hmod] at hn
      refine ⟨?_, by omega, ?_⟩
      · intro id dev h
        rw [hs] at h; rw [hn]
        by_cases hid : id = st.nextDevId
        · omega
        · simp only [ServerState.store, hid, if_false] at h
          have := hinv id dev h
          omega
      · intro id dev h
        have hlt := hinv id dev h
        have hid : id ≠ st.nextDevId := by omega
        rw [hs]
        exact ⟨dev, by simp [ServerState.store, hid, h], Nat.le_refl _, Nat.le_refl _⟩

theorem CountersLe.trans {s t u : ServerState} (h1 : CountersLe s t) (h2 : CountersLe t u) :
    CountersLe s u := by
  intro id dev h
  obtain ⟨d2, ht, ha, hb⟩ := h1 id dev h
  obtain ⟨d3, hu, hc, hd⟩ := h2 id d2 ht
  exact ⟨d3, hu, by omega, by omega⟩

theorem run_invariant (C : Crypto) (evs : List Event) (st : ProcState)
    (hinv : IdsBelowNext st) (hnext : st.nextDevId + evs.length < 2 ^ 32) :
    IdsBelowNext (run C st evs).1 ∧
    (run C st evs).1.nextDevId ≤ st.nextDevId + evs.length ∧
    CountersLe st.sState (run C st evs).1.sState := by
  induction evs generalizing st with
  | nil =>
    refine ⟨hinv, by simp [run], ?_⟩
    intro id dev h
    exact ⟨dev, h, Nat.le_refl _, Nat.le_refl _⟩
  | cons e es ih =>
    simp only [List.length_cons] at hnext
    obtain ⟨hi, hn, hc⟩ := step_invariant C st e hinv (by omega)
    obtain ⟨hi2, hn2, hc2⟩ := ih (step C st e).state hi (by omega)
    refine ⟨hi2, ?_, hc.trans hc2⟩
    simp only [run, List.length_cons]
    omega

theorem idsBelowNext_init : IdsBelowNext ProcState.init := by
  intro id dev h
  simp [ProcState.init] at h

theorem authStep_responded_stored (C : Crypto) (st : ProcState) (authReq : AuthReq)
    (now : Nat) (rnd : Option (List Nat))
    (h : (authStep C st authReq now rnd).branch = .authResponded) :
    ∃ dev2, (authStep C st authReq now rnd).state.sState authReq.DevId = some dev2 ∧
      dev2.rebCnt = authReq.RebCnt ∧ dev2.reqCnt = authReq.ReqCnt := by
  cases hdev : st.sState authReq.DevId with
  | none => unfold authStep at h; simp [hdev] at h
  | some dev =>
    unfold authStep at h ⊢
    simp only [hdev] at h ⊢
    split_ifs at h ⊢
    · cases rnd with
      | none => simp at h
      | some r => exact ⟨_, ServerState.store_self _ _ _, rfl, rfl⟩

theorem authStep_pastMac_fresh (C : Crypto) (st : ProcState) (authReq : AuthReq)
    (now : Nat) (rnd : Option (List Nat))
    (h : (authStep C st authReq now rnd).branch.pastMac = true) :
    ∃ dev, st.sState authReq.DevId = some dev ∧
      dev.rebCnt ≤ authReq.RebCnt ∧ dev.reqCnt ≤ authReq.ReqCnt := by
  cases hdev : st.sState authReq.DevId with
  | none => unfold authStep at h; simp [hdev, Branch.pastMac] at h
  | some dev =>
    unfold authStep at h
    simp only [hdev] at h
    refine ⟨dev, rfl, ?_⟩
    split_ifs at h with h1 h2 h3 h4
    · simp [Branch.pastMac] at h
    · simp [Branch.pastMac] at h
    · simp [Branch.pastMac] at h
    · exact ⟨by omega, by omega⟩
    · exact ⟨by omega, by omega⟩

/-! ## Authentication step: unknown device and audit log -/

/-- C18: a request for a device id that is not a key of the device registry
writes nothing and leaves the whole processor state as it is: device registry
(with every log), scan registry and `nextDevId`. -/
theorem auth_unknown_device_no_effect (C : Crypto) (st : ProcState) (authReq : AuthReq)
    (now : Nat) (rnd : Option (List Nat))
    (hdev : st.sState authReq.DevId = none) :
    (authStep C st authReq now rnd).branch = .authUnknownDevice ∧
    (authStep C st authReq now rnd).writes = [] ∧
    (authStep C st authReq now rnd).state = st := by
  unfold authStep
  simp [hdev]

set_option maxRecDepth 100000 in
/-- Witness for the theorem of C18: device 999 is not registered in
`Fixture.st1`. -/
theorem auth_unknown_device_no_effect_witness :
    Fixture.st1.sState Fixture.unknownReq.DevId = none ∧
    ((authStep Fixture.crypto Fixture.st1 Fixture.unknownReq 5 Fixture.rnd0).branch
        = .authUnknownDevice ∧
     (authStep Fixture.crypto Fixture.st1 Fixture.unknownReq 5 Fixture.rnd0).writes = [] ∧
     (authStep Fixture.crypto Fixture.st1 Fixture.unknownReq 5 Fixture.rnd0).state
        = Fixture.st1) :=
  ⟨by decide,
   auth_unknown_device_no_effect Fixture.crypto Fixture.st1 Fixture.unknownReq 5 Fixture.rnd0
     (by decide)⟩

/-- The record of the addressed device after the auth step: the log has grown
by the entry of step 2, and every field besides the log, the two counters and
`LastRandomness` is as before. -/
theorem authStep_record (C : Crypto) (st : ProcState) (authReq : AuthReq) (now : Nat)
    (rnd : Option (List Nat)) (dev : DeviceState)
    (hdev : st.sState authReq.DevId = some dev) :
    ∃ dev2, (authStep C st authReq now rnd).state.sState authReq.DevId = some dev2 ∧
      dev2.Log = dev.Log ++
        [{ ArrivalTime := now, DevId := 0, Paired := dev.Paired, AuthReq := authReq }] ∧
      dev2.Conn = dev.Conn ∧ dev2.Id = dev.Id ∧ dev2.Type_ = dev.Type_ ∧
      dev2.CapURI = dev.CapURI ∧ dev2.Sesskeys = dev.Sesskeys ∧ dev2.Paired = dev.Paired ∧
      dev2.ScanData = dev.ScanData := by
  unfold authStep
  simp only [hdev]
  split_ifs
  · exact ⟨_, ServerState.store_self _ _ _, rfl, rfl, rfl, rfl, rfl, rfl, rfl, rfl⟩
  · exact ⟨_, ServerState.store_self _ _ _, rfl, rfl, rfl, rfl, rfl, rfl, rfl, rfl⟩
  · exact ⟨_, ServerState.store_self _ _ _, rfl, rfl, rfl, rfl, rfl, rfl, rfl, rfl⟩
  · exact ⟨_, ServerState.store_self _ _ _, rfl, rfl, rfl, rfl, rfl, rfl, rfl, rfl⟩
  · cases rnd with
    | none => exact ⟨_, ServerState.store_self _ _ _, rfl, rfl, rfl, rfl, rfl, rfl, rfl, rfl⟩
    | some r => exact ⟨_, ServerState.store_self _ _ _, rfl, rfl, rfl, rfl, rfl, rfl, rfl, rfl⟩

/-- C19: for a registered device the log of its record after the auth step is
the log before with exactly one entry appended, whichever branch the step
takes; the entry holds `Paired` as stored before the step and the request as
received. -/
theorem auth_appends_one_log_entry (C : Crypto) (st : ProcState) (authReq : AuthReq)
    (now : Nat) (rnd : Option (List Nat)) (dev : DeviceState)
    (hdev : st.sState authReq.DevId = some dev) :
    ∃ dev2 entry, (authStep C st authReq now rnd).state.sState authReq.DevId = some dev2 ∧
      dev2.Log = dev.Log ++ [entry] ∧
      entry.Paired = dev.Paired ∧ entry.AuthReq = authReq ∧ entry.ArrivalTime = now := by
  obtain ⟨dev2, h2, hlog, _⟩ := authStep_record C st authReq now rnd dev hdev
  exact ⟨dev2, _, h2, hlog, rfl, rfl, rfl⟩

set_option maxRecDepth 100000 in
/-- Witness for the theorem of C19: the forged request in `Fixture.st2`, which
ends in the bad-MAC branch. -/
theorem auth_appends_one_log_entry_witness :
    Fixture.st2.sState Fixture.forgedReq.DevId = some (Fixture.device Fixture.st2 0) ∧
    ∃ dev2 entry,
      (authStep Fixture.crypto Fixture.st2 Fixture.forgedReq 102 none).state.sState
        Fixture.forgedReq.DevId = some dev2 ∧
      dev2.Log = (Fixture.device Fixture.st2 0).Log ++ [entry] ∧
      entry.Paired = (Fixture.device Fixture.st2 0).Paired ∧
      entry.AuthReq = Fixture.forgedReq ∧ entry.ArrivalTime = 102 :=
  ⟨by decide,
   auth_appends_one_log_entry Fixture.crypto Fixture.st2 Fixture.forgedReq 102 none
     (Fixture.device Fixture.st2 0) (by decide)⟩

/-! ## Scan event and unresolved signup -/

/-- C15: the scan event leaves the registry unchanged when the key of the
received record is present (whatever its preshared key), and otherwise stores
the record under its key and changes no other entry; handling the same record
a second time changes nothing more. -/
theorem scan_event_insert (st : ProcState) (r : Scan) :
    ((st.scans r.SPubGW).isSome = true → (scanStep st r).state.scans = st.scans) ∧
    (st.scans r.SPubGW = none →
      (scanStep st r).state.scans r.SPubGW = some r ∧
      ∀ k, k ≠ r.SPubGW → (scanStep st r).state.scans k = st.scans k) ∧
    (scanStep (scanStep st r).state r).state.scans = (scanStep st r).state.scans := by
  refine ⟨?_, ?_, ?_⟩
  · intro h
    rw [scanStep_scans_eq_insertSpec]
    simp [insertSpec, h]
  · intro h
    rw [scanStep_scans_eq_insertSpec]
    simp only [insertSpec, h, Option.isSome_none, Bool.false_eq_true, if_false]
    refine ⟨by simp [Scans.store], ?_⟩
    intro k hk
    simp [Scans.store, hk]
  · rw [scanStep_scans_eq_insertSpec, scanStep_scans_eq_insertSpec]
    unfold insertSpec
    cases hk : st.scans r.SPubGW with
    | none => simp [Scans.store]
    | some v => simp [hk]

set_option maxRecDepth 100000 in
/-- Witness for the theorem of C15: in the initial state the key of
`Fixture.scan0` is absent and the scan event stores the record; in the state
after it the key is present, and the scan of `Fixture.scan0b`, which has the
same key and another preshared key, leaves the stored record in place. -/
theorem scan_event_insert_witness :
    (ProcState.init.scans Fixture.scan0.SPubGW = none ∧
     ((scanStep ProcState.init Fixture.scan0).state.scans Fixture.scan0b.SPubGW).isSome = true) ∧
    (scanStep ProcState.init Fixture.scan0).state.scans Fixture.scan0.SPubGW
      = some Fixture.scan0 ∧
    (scanStep (scanStep ProcState.init Fixture.scan0).state Fixture.scan0b).state.scans
      = (scanStep ProcState.init Fixture.scan0).state.scans :=
  ⟨⟨by decide, by decide⟩,
   ((scan_event_insert ProcState.init Fixture.scan0).2.1 (by decide)).1,
   (scan_event_insert (scanStep ProcState.init Fixture.scan0).state Fixture.scan0b).1
     (by decide)⟩

/-- The second lookup of step 1.1 misses when the key is neither in the
registry nor among the keys received from the queue. -/
theorem resolveScan_of_absent (scans : Scans) (sPubGw : List Nat) (queued : List Scan)
    (hreg : scans sPubGw = none) (hq : sPubGw ∉ queued.map Scan.SPubGW) :
    resolveScan scans sPubGw queued = (drainScans scans queued, Scan.zero, false) := by
  have hd : drainScans scans queued sPubGw = none := by
    rw [drainScans_apply]; simp [hreg, hq]
  unfold resolveScan Scans.lookup
  simp [hreg, hd]

/-- C17: a signup request whose static key is neither a key of the scan
registry nor the key of a queued scan ends at the second lookup: no device
record is created or changed, `nextDevId` is not advanced, and nothing is
written. -/
theorem signup_without_scan_no_effect (C : Crypto) (st : ProcState) (signupReq : SignupReq)
    (queued : List Scan) (rnd : Option (List Nat))
    (hreg : st.scans signupReq.SPubGW = none)
    (hq : signupReq.SPubGW ∉ queued.map Scan.SPubGW) :
    (signupStep C st signupReq queued rnd).branch = .signupNoScan ∧
    (signupStep C st signupReq queued rnd).writes = [] ∧
    (signupStep C st signupReq queued rnd).state.sState = st.sState ∧
    (signupStep C st signupReq queued rnd).state.nextDevId = st.nextDevId := by
  unfold signupStep
  simp [resolveScan_of_absent st.scans signupReq.SPubGW queued hreg hq]

set_option maxRecDepth 100000 in
/-- Witness for the theorem of C17: `Fixture.strangerReq` in `Fixture.st1`
while `Fixture.scan0b` is queued; neither has its key. -/
theorem signup_without_scan_no_effect_witness :
    (Fixture.st1.scans Fixture.strangerReq.SPubGW = none ∧
     Fixture.strangerReq.SPubGW ∉ [Fixture.scan0b].map Scan.SPubGW) ∧
    ((signupStep Fixture.crypto Fixture.st1 Fixture.strangerReq [Fixture.scan0b]
        Fixture.rnd0).branch = .signupNoScan ∧
     (signupStep Fixture.crypto Fixture.st1 Fixture.strangerReq [Fixture.scan0b]
        Fixture.rnd0).writes = [] ∧
     (signupStep Fixture.crypto Fixture.st1 Fixture.strangerReq [Fixture.scan0b]
        Fixture.rnd0).state.sState = Fixture.st1.sState ∧
     (signupStep Fixture.crypto Fixture.st1 Fixture.strangerReq [Fixture.scan0b]
        Fixture.rnd0).state.nextDevId = Fixture.st1.nextDevId) :=
  ⟨⟨by decide, by decide⟩,
   signup_without_scan_no_effect Fixture.crypto Fixture.st1 Fixture.strangerReq
     [Fixture.scan0b] Fixture.rnd0 (by decide) (by decide)⟩

/-! ## Response messages -/

theorem goCopy_of_length_eq (dst src : List Nat) (h : src.length = dst.length) :
    goCopy dst src = src := by
  unfold goCopy
  rw [List.take_of_length_le (by omega), List.drop_of_length_le (by omega)]
  simp

theorem length_zeros (n : Nat) : (zeros n).length = n := by
  simp [zeros]

/-- The message the auth step writes for an accepted non-dummy request whose
tag has `HMAC_OUTPUT_SIZE` bytes, when HMAC values have that size. -/
theorem authStep_writes_of_accepted (C : Crypto) (st : ProcState) (authReq : AuthReq)
    (now : Nat) (N : List Nat) (dev : DeviceState)
    (hlen : ∀ k m, (C.hmac k m).length = 32)
    (hdev : st.sState authReq.DevId = some dev)
    (hfresh : dev.rebCnt ≤ authReq.RebCnt ∧ dev.reqCnt ≤ authReq.ReqCnt)
    (hmac : authReq.MacTag
      = C.hmac dev.Sesskeys.K_gw_s (authMacInput authReq dev.LastRandomness))
    (hreal : authReq.AccessType ≠ DUMMY_REQUEST) (hN : N.length = 16) :
    (authStep C st authReq now (some N)).writes
      = [(dev.Conn, [3, 48, 0] ++ N ++ C.hmac dev.Sesskeys.K_s_gw (N ++ authReq.MacTag))] := by
  have h1 : ¬ authReq.RebCnt < dev.rebCnt := by omega
  have h2 : ¬ authReq.ReqCnt < dev.reqCnt := by omega
  have hM : authReq.MacTag.length = 32 := by rw [hmac]; exact hlen _ _
  have hc : goCopy (zeros RANDOM_LEN) N = N := goCopy_zeros_of_length 16 N hN
  have hcM : goCopy (zeros HMAC_OUTPUT_SIZE) authReq.MacTag = authReq.MacTag :=
    goCopy_zeros_of_length 32 _ hM
  have ht : List.take RANDOM_LEN (N ++ authReq.MacTag) = N := by
    rw [List.take_append_of_le_length (by simp [RANDOM_LEN, hN])]
    rw [List.take_of_length_le]; simp [RANDOM_LEN, hN]
  have hd : List.drop RANDOM_LEN (N ++ authReq.MacTag) = authReq.MacTag := by
    rw [show RANDOM_LEN = N.length from by simp [RANDOM_LEN, hN]]
    exact List.drop_left _ _
  have hT : goCopy authReq.MacTag
      (C.hmac dev.Sesskeys.K_s_gw (N ++ authReq.MacTag))
      = C.hmac dev.Sesskeys.K_s_gw (N ++ authReq.MacTag) :=
    goCopy_of_length_eq _ _ (by rw [hlen, hM])
  have hB : goCopy (zeros (HEADER_LEN + LEN_PAYLOAD_AUTH_RESP - HEADER_LEN))
      (N ++ C.hmac dev.Sesskeys.K_s_gw (N ++ authReq.MacTag))
      = N ++ C.hmac dev.Sesskeys.K_s_gw (N ++ authReq.MacTag) :=
    goCopy_of_length_eq _ _ (by
      simp [length_zeros, hN, hlen, HEADER_LEN, LEN_PAYLOAD_AUTH_RESP, RANDOM_LEN,
        HMAC_OUTPUT_SIZE, SHA256_OUTPUT_SIZE])
  have hH : buildHeader PAYLOAD_AUTH_RESP = [3, 48, 0] := by decide
  unfold authStep
  simp only [hdev, h1, h2, if_false, constantTimeCompare, hmac.symm, if_true, hreal, hc, hcM,
    ht, hd, hT, buildMsg, hB, hH, ne_eq, not_true_eq_false]
  simp

/-- C11: for an accepted non-dummy request handled with the 16-byte nonce `N`
the message written to the connection of the device has 51 bytes: 3, then 48
as a little-endian u16, then `N`, then HMAC(K_s_gw, N ‖ request tag); `N` is
also the `LastRandomness` stored in the record.  HMAC values have 32 bytes. -/
theorem auth_response_format (C : Crypto) (st : ProcState) (authReq : AuthReq)
    (now : Nat) (N : List Nat) (dev : DeviceState)
    (hlen : ∀ k m, (C.hmac k m).length = 32)
    (hdev : st.sState authReq.DevId = some dev)
    (hlr : dev.LastRandomness.length = 16)
    (hfresh : dev.rebCnt ≤ authReq.RebCnt ∧ dev.reqCnt ≤ authReq.ReqCnt)
    (hmac : authReq.MacTag = C.hmac dev.Sesskeys.K_gw_s
        (putUint32 authReq.RebCnt ++ putUint32 authReq.ReqCnt
          ++ putUint16 authReq.AccessType ++ dev.LastRandomness))
    (hreal : authReq.AccessType ≠ DUMMY_REQUEST) (hN : N.length = 16) :
    (authStep C st authReq now (some N)).writes
      = [(dev.Conn, [PAYLOAD_AUTH_RESP] ++ putUint16 48 ++ N
            ++ C.hmac dev.Sesskeys.K_s_gw (N ++ authReq.MacTag))] ∧
    ([PAYLOAD_AUTH_RESP] ++ putUint16 48 ++ N
        ++ C.hmac dev.Sesskeys.K_s_gw (N ++ authReq.MacTag)).length = 51 ∧
    ∃ dev2, (authStep C st authReq now (some N)).state.sState authReq.DevId = some dev2 ∧
      dev2.LastRandomness = N := by
  rw [← authMacInput_of_length authReq dev.LastRandomness hlr] at hmac
  obtain ⟨_, _, hs⟩ := authStep_of_accepted C st authReq now N dev hdev hfresh hmac hreal hN
  refine ⟨?_, ?_, _, hs, rfl⟩
  · rw [authStep_writes_of_accepted C st authReq now N dev hlen hdev hfresh hmac hreal hN]
    rfl
  · simp [hN, hlen, putUint16]

theorem Fixture.hmac_length (k m : List Nat) : (Fixture.crypto.hmac k m).length = 32 := by
  simp [Fixture.crypto, Fixture.hmac]

set_option maxRecDepth 100000 in
/-- Witness for the theorem of C11: `Fixture.sensorReq` accepted in
`Fixture.st1` with nonce `Fixture.nonce1`. -/
theorem auth_response_format_witness :
    (Fixture.st1.sState Fixture.sensorReq.DevId = some (Fixture.device Fixture.st1 0) ∧
     (Fixture.device Fixture.st1 0).LastRandomness.length = 16 ∧
     ((Fixture.device Fixture.st1 0).rebCnt ≤ Fixture.sensorReq.RebCnt ∧
      (Fixture.device Fixture.st1 0).reqCnt ≤ Fixture.sensorReq.ReqCnt) ∧
     Fixture.sensorReq.MacTag
       = Fixture.crypto.hmac (Fixture.device Fixture.st1 0).Sesskeys.K_gw_s
          (putUint32 Fixture.sensorReq.RebCnt ++ putUint32 Fixture.sensorReq.ReqCnt
            ++ putUint16 Fixture.sensorReq.AccessType
            ++ (Fixture.device Fixture.st1 0).LastRandomness) ∧
     Fixture.sensorReq.AccessType ≠ DUMMY_REQUEST ∧ Fixture.nonce1.length = 16) ∧
    (authStep Fixture.crypto Fixture.st1 Fixture.sensorReq 100 (some Fixture.nonce1)).writes
      = [((Fixture.device Fixture.st1 0).Conn, [PAYLOAD_AUTH_RESP] ++ putUint16 48
            ++ Fixture.nonce1
            ++ Fixture.crypto.hmac (Fixture.device Fixture.st1 0).Sesskeys.K_s_gw
                (Fixture.nonce1 ++ Fixture.sensorReq.MacTag))] :=
  ⟨by decide,
   (auth_response_format Fixture.crypto Fixture.st1 Fixture.sensorReq 100 Fixture.nonce1
     (Fixture.device Fixture.st1 0) Fixture.hmac_length (by decide) (by decide) (by decide)
     (by decide) (by decide) (by decide)).1⟩

/-- The bytes `createSignupResp` returns for a 32-byte server key, when HMAC
values have 32 bytes. -/
theorem createSignupResp_bytes (C : Crypto) (d : Nat) (X E psk : List Nat)
    (hlen : ∀ k m, (C.hmac k m).length = 32) (hX : X.length = 32) :
    createSignupResp C d X E psk
      = some ([1, 68, 0] ++ putUint32 d ++ X ++ C.hmac psk (X ++ E)) := by
  have hH : buildHeader PAYLOAD_SIGNUP_RESP = [1, 68, 0] := by decide
  have hr : goCopy (zeros (LEN_PAYLOAD_SIGNUP_RESP - DEVICE_ID_LEN)) X = X ++ zeros 32 := by
    unfold goCopy
    rw [List.take_of_length_le (by rw [length_zeros, hX]; decide), hX]
    rfl
  have ht : List.take KEY_LEN (X ++ zeros 32) = X := by
    rw [List.take_append_of_le_length (by rw [hX]; decide)]
    rw [List.take_of_length_le (by rw [hX]; decide)]
  have hd : List.drop KEY_LEN (X ++ zeros 32) = zeros 32 := by
    rw [show KEY_LEN = X.length from by rw [hX]; rfl]
    exact List.drop_left _ _
  unfold createSignupResp
  simp only [hH, hr, ht, hd, goCopy_zeros_of_length 32 _ (hlen psk (X ++ E))]
  simp

/-- The scan events of the main select change neither `nextDevId` nor the
device registry. -/
theorem run_scans_fresh (C : Crypto) (scans : List Scan) (st : ProcState) :
    (run C st (scans.map Event.scan)).1.nextDevId = st.nextDevId ∧
    (run C st (scans.map Event.scan)).1.sState = st.sState := by
  induction scans generalizing st with
  | nil => exact ⟨rfl, rfl⟩
  | cons s rest ih =>
    obtain ⟨h1, h2⟩ := ih (scanStep st s).state
    obtain ⟨h3, h4⟩ := scanStep_sState st s
    simp only [List.map_cons, run, step]
    exact ⟨h1.trans h4, h2.trans h3⟩

/-- A signup step that reaches the end of the case: the record it stored under
the old value of `nextDevId`, and the response it wrote. -/
theorem signupStep_done (C : Crypto) (st : ProcState) (signupReq : SignupReq)
    (queued : List Scan) (rnd : Option (List Nat))
    (h : (signupStep C st signupReq queued rnd).branch = .signupDone) :
    ∃ xSlice xP s1 s2 respMsg,
      (resolveScan st.scans signupReq.SPubGW queued).2.2 = true ∧
      createEphemeralKeyPair C rnd = some (xSlice, xP) ∧
      diffieHellman C (goCopy (zeros KEY_LEN) xSlice) signupReq.SPubGW = some s1 ∧
      diffieHellman C (goCopy (zeros KEY_LEN) xSlice) signupReq.EPubGw = some s2 ∧
      createSignupResp C st.nextDevId xP signupReq.EPubGw
        (resolveScan st.scans signupReq.SPubGW queued).2.1.Psk = some respMsg ∧
      (signupStep C st signupReq queued rnd).writes = [(signupReq.Conn, respMsg)] ∧
      (signupStep C st signupReq queued rnd).state.nextDevId = (st.nextDevId + 1) % 2 ^ 32 ∧
      (signupStep C st signupReq queued rnd).state.scans
        = (resolveScan st.scans signupReq.SPubGW queued).1 ∧
      (signupStep C st signupReq queued rnd).state.sState
        = st.sState.store st.nextDevId
            { Conn := signupReq.Conn, Id := st.nextDevId, Type_ := signupReq.DevType,
              rebCnt := 0, reqCnt := 0, LastRandomness := zeros RANDOM_LEN,
              CapURI := signupReq.CapURI,
              Sesskeys :=
                { K_gw_s := (Hkdf C (s1 ++ s2
                      ++ (resolveScan st.scans signupReq.SPubGW queued).2.1.Psk)
                    (zeros 16) infos).getD 0 [],
                  K_s_gw := (Hkdf C (s1 ++ s2
                      ++ (resolveScan st.scans signupReq.SPubGW queued).2.1.Psk)
                    (zeros 16) infos).getD 1 [] },
              Paired := false,
              ScanData := (resolveScan st.scans signupReq.SPubGW queued).2.1,
              Log := [] } := by
  unfold signupStep at h ⊢
  simp only [] at h ⊢
  split at h
  · simp at h
  · rename_i hex
    split at h
    · simp at h
    · rename_i xSlice xP hkp
      split at h
      · simp at h
      · rename_i s1 hs1
        split at h
        · simp at h
        · rename_i s2 hs2
          split at h
          · simp at h
          · rename_i respMsg hresp
            refine ⟨xSlice, xP, s1, s2, respMsg, by simpa using hex, hkp, hs1, hs2, hresp, ?_⟩
            simp only [hex, hkp, hs1, hs2, hresp]
            simp

/-- A signup step whose scan is resolved and whose key agreement succeeds
reaches the end of the case. -/
theorem signupStep_of_resolved (C : Crypto) (st : ProcState) (signupReq : SignupReq)
    (queued : List Scan) (rnd : Option (List Nat)) (scans : Scans) (scan : Scan)
    (xSlice xP s1 s2 : List Nat)
    (hres : resolveScan st.scans signupReq.SPubGW queued = (scans, scan, true))
    (hkp : createEphemeralKeyPair C rnd = some (xSlice, xP))
    (h1 : diffieHellman C (goCopy (zeros KEY_LEN) xSlice) signupReq.SPubGW = some s1)
    (h2 : diffieHellman C (goCopy (zeros KEY_LEN) xSlice) signupReq.EPubGw = some s2) :
    (signupStep C st signupReq queued rnd).branch = .signupDone ∧
    (∃ respMsg, createSignupResp C st.nextDevId xP signupReq.EPubGw scan.Psk = some respMsg ∧
      (signupStep C st signupReq queued rnd).writes = [(signupReq.Conn, respMsg)]) ∧
    (signupStep C st signupReq queued rnd).state.nextDevId = (st.nextDevId + 1) % 2 ^ 32 ∧
    (signupStep C st signupReq queued rnd).state.scans = scans ∧
    (signupStep C st signupReq queued rnd).state.sState
      = st.sState.store st.nextDevId
          { Conn := signupReq.Conn, Id := st.nextDevId, Type_ := signupReq.DevType,
            rebCnt := 0, reqCnt := 0, LastRandomness := zeros RANDOM_LEN,
            CapURI := signupReq.CapURI,
            Sesskeys :=
              { K_gw_s := (Hkdf C (s1 ++ s2 ++ scan.Psk) (zeros 16) infos).getD 0 [],
                K_s_gw := (Hkdf C (s1 ++ s2 ++ scan.Psk) (zeros 16) infos).getD 1 [] },
            Paired := false, ScanData := scan, Log := [] } := by
  unfold signupStep
  simp only [hres, hkp, h1, h2]
  unfold createSignupResp
  simp

/-- The labels of the two session keys are the strings of the source. -/
theorem infos_eq_labels :
    infos = [("gw_s").toList.map Char.toNat, ("s_gw").toList.map Char.toNat] := by
  decide

/-- The first lookup of step 1.1 hits: no receive from the queue. -/
theorem resolveScan_of_present (scans : Scans) (sPubGw : List Nat) (queued : List Scan)
    (scan : Scan) (h : scans sPubGw = some scan) :
    resolveScan scans sPubGw queued = (scans, scan, true) := by
  unfold resolveScan Scans.lookup
  simp [h]

/-- C12: `createSignupResp` returns 71 bytes: 1, then 68 as a little-endian
u16, then the device id as a little-endian u32, then the 32-byte server key
`X`, then HMAC(psk, X ‖ E); the signup that a processor handles first, after
scan events only, carries device id 0.  HMAC values have 32 bytes. -/
theorem signup_response_format (C : Crypto) (d : Nat) (X E psk : List Nat)
    (hlen : ∀ k m, (C.hmac k m).length = 32) (hX : X.length = 32) :
    createSignupResp C d X E psk
      = some ([PAYLOAD_SIGNUP_RESP] ++ putUint16 68 ++ putUint32 d ++ X ++ C.hmac psk (X ++ E)) ∧
    ([PAYLOAD_SIGNUP_RESP] ++ putUint16 68 ++ putUint32 d ++ X ++ C.hmac psk (X ++ E)).length
      = 71 ∧
    ∀ (scans : List Scan) (signupReq : SignupReq) (queued : List Scan)
      (rnd : Option (List Nat)),
      (signupStep C (run C ProcState.init (scans.map Event.scan)).1 signupReq queued rnd).branch
        = .signupDone →
      ∃ X0 psk0 respMsg, createSignupResp C 0 X0 signupReq.EPubGw psk0 = some respMsg ∧
        (signupStep C (run C ProcState.init (scans.map Event.scan)).1
          signupReq queued rnd).writes = [(signupReq.Conn, respMsg)] ∧
        ∃ dev, (signupStep C (run C ProcState.init (scans.map Event.scan)).1
          signupReq queued rnd).state.sState 0 = some dev ∧ dev.Id = 0 := by
  refine ⟨?_, ?_, ?_⟩
  · rw [createSignupResp_bytes C d X E psk hlen hX]
    rfl
  · simp [hX, hlen, putUint16, putUint32]
  · intro scans signupReq queued rnd hdone
    have hn := (run_scans_fresh C scans ProcState.init).1
    have h0 : ProcState.init.nextDevId = 0 := rfl
    rw [h0] at hn
    obtain ⟨xSlice, xP, s1, s2, respMsg, _, _, _, _, hresp, hw, _, _, hs⟩ :=
      signupStep_done C _ signupReq queued rnd hdone
    rw [hn] at hresp hs
    refine ⟨xP, _, respMsg, hresp, hw, ?_⟩
    rw [hs]
    exact ⟨_, ServerState.store_self _ _ _, rfl⟩

set_option maxRecDepth 100000 in
/-- Witness for the theorem of C12: device id 7 with two 32-byte keys, and the
signup of `Fixture.signupReq0` after the scan of `Fixture.scan0`. -/
theorem signup_response_format_witness :
    (List.replicate 32 4).length = 32 ∧
    createSignupResp Fixture.crypto 7 (List.replicate 32 4) (List.replicate 32 6)
        (List.range 32)
      = some ([PAYLOAD_SIGNUP_RESP] ++ putUint16 68 ++ putUint32 7 ++ List.replicate 32 4
          ++ Fixture.crypto.hmac (List.range 32) (List.replicate 32 4 ++ List.replicate 32 6)) ∧
    (signupStep Fixture.crypto
        (run Fixture.crypto ProcState.init ([Fixture.scan0].map Event.scan)).1
        Fixture.signupReq0 [] Fixture.rnd0).branch = .signupDone ∧
    ∃ X0 psk0 respMsg,
      createSignupResp Fixture.crypto 0 X0 Fixture.signupReq0.EPubGw psk0 = some respMsg ∧
      (signupStep Fixture.crypto
          (run Fixture.crypto ProcState.init ([Fixture.scan0].map Event.scan)).1
          Fixture.signupReq0 [] Fixture.rnd0).writes = [(Fixture.signupReq0.Conn, respMsg)] ∧
      ∃ dev, (signupStep Fixture.crypto
          (run Fixture.crypto ProcState.init ([Fixture.scan0].map Event.scan)).1
          Fixture.signupReq0 [] Fixture.rnd0).state.sState 0 = some dev ∧ dev.Id = 0 :=
  have h := signup_response_format Fixture.crypto 7 (List.replicate 32 4)
    (List.replicate 32 6) (List.range 32) Fixture.hmac_length (by decide)
  ⟨by decide, h.1, by decide,
   h.2.2 [Fixture.scan0] Fixture.signupReq0 [] Fixture.rnd0 (by decide)⟩

/-- C13: in a signup whose scan is resolved to a record with preshared key
`scan.Psk` and whose key agreement with the 32-byte private scalar `x`
succeeds (`s1 = DH(x, S)`, `s2 = DH(x, E)`), the record stored under the new
id has K_gw_s = HMAC(prk, "gw_s" ‖ 0x01) and K_s_gw = HMAC(prk, "s_gw" ‖ 0x01)
with prk = HMAC(16 zero bytes, s1 ‖ s2 ‖ scan.Psk); `Hkdf` returns, for any
list of labels, the list of HMAC(prk, label ‖ 0x01) in the order of the
labels, a function of its inputs. -/
theorem signup_session_keys (C : Crypto) (st : ProcState) (signupReq : SignupReq)
    (queued : List Scan) (x xP s1 s2 : List Nat) (scans : Scans) (scan : Scan)
    (hx : x.length = 32)
    (hres : resolveScan st.scans signupReq.SPubGW queued = (scans, scan, true))
    (hxP : C.x25519 x Basepoint = some xP)
    (h1 : C.x25519 x signupReq.SPubGW = some s1)
    (h2 : C.x25519 x signupReq.EPubGw = some s2) :
    (signupStep C st signupReq queued (some x)).branch = .signupDone ∧
    ((signupStep C st signupReq queued (some x)).state.sState st.nextDevId).map
        DeviceState.Sesskeys
      = some
          { K_gw_s := C.hmac (C.hmac (zeros 16) (s1 ++ s2 ++ scan.Psk))
              (("gw_s").toList.map Char.toNat ++ [0x01]),
            K_s_gw := C.hmac (C.hmac (zeros 16) (s1 ++ s2 ++ scan.Psk))
              (("s_gw").toList.map Char.toNat ++ [0x01]) } ∧
    ∀ (ikm salt : List Nat) (labels : List (List Nat)),
      (Hkdf C ikm salt labels).length = labels.length ∧
      Hkdf C ikm salt labels = labels.map (fun l => C.hmac (C.hmac salt ikm) (l ++ [0x01])) := by
  have hx0 : goCopy (zeros 32) x = x := goCopy_zeros_of_length 32 x hx
  have hkp : createEphemeralKeyPair C (some x) = some (x, xP) := by
    simp [createEphemeralKeyPair, hx0, hxP]
  have hxk : goCopy (zeros KEY_LEN) x = x := hx0
  obtain ⟨hb, _, _, _, hs⟩ := signupStep_of_resolved C st signupReq queued (some x) scans scan
    x xP s1 s2 hres hkp (by rw [hxk]; exact h1) (by rw [hxk]; exact h2)
  refine ⟨hb, ?_, ?_⟩
  · rw [hs, ServerState.store_self]
    rfl
  · intro ikm salt labels
    exact ⟨by simp [Hkdf], rfl⟩

set_option maxRecDepth 100000 in
/-- Witness for the theorem of C13: the signup of `Fixture.signupReq0` after
the scan of `Fixture.scan0`, with private scalar 32 x 0x03. -/
theorem signup_session_keys_witness :
    ((List.replicate 32 3).length = 32 ∧
     resolveScan (scanStep ProcState.init Fixture.scan0).state.scans
        Fixture.signupReq0.SPubGW []
       = ((scanStep ProcState.init Fixture.scan0).state.scans, Fixture.scan0, true) ∧
     Fixture.crypto.x25519 (List.replicate 32 3) Basepoint
       = some (Fixture.dh (List.replicate 32 3) Basepoint) ∧
     Fixture.crypto.x25519 (List.replicate 32 3) Fixture.signupReq0.SPubGW
       = some (Fixture.dh (List.replicate 32 3) Fixture.signupReq0.SPubGW) ∧
     Fixture.crypto.x25519 (List.replicate 32 3) Fixture.signupReq0.EPubGw
       = some (Fixture.dh (List.replicate 32 3) Fixture.signupReq0.EPubGw)) ∧
    ((signupStep Fixture.crypto (scanStep ProcState.init Fixture.scan0).state
        Fixture.signupReq0 [] (some (List.replicate 32 3))).state.sState 0).map
        DeviceState.Sesskeys
      = some
          { K_gw_s := Fixture.crypto.hmac
              (Fixture.crypto.hmac (zeros 16)
                (Fixture.dh (List.replicate 32 3) Fixture.signupReq0.SPubGW
                  ++ Fixture.dh (List.replicate 32 3) Fixture.signupReq0.EPubGw
                  ++ Fixture.scan0.Psk))
              (("gw_s").toList.map Char.toNat ++ [0x01]),
            K_s_gw := Fixture.crypto.hmac
              (Fixture.crypto.hmac (zeros 16)
                (Fixture.dh (List.replicate 32 3) Fixture.signupReq0.SPubGW
                  ++ Fixture.dh (List.replicate 32 3) Fixture.signupReq0.EPubGw
                  ++ Fixture.scan0.Psk))
              (("s_gw").toList.map Char.toNat ++ [0x01]) } :=
  ⟨⟨by decide, resolveScan_of_present _ _ _ _ (by decide), by decide, by decide, by decide⟩,
   (signup_session_keys Fixture.crypto (scanStep ProcState.init Fixture.scan0).state
     Fixture.signupReq0 [] (List.replicate 32 3)
     (Fixture.dh (List.replicate 32 3) Basepoint)
     (Fixture.dh (List.replicate 32 3) Fixture.signupReq0.SPubGW)
     (Fixture.dh (List.replicate 32 3) Fixture.signupReq0.EPubGw)
     (scanStep ProcState.init Fixture.scan0).state.scans Fixture.scan0 (by decide)
     (resolveScan_of_present _ _ _ _ (by decide)) (by decide) (by decide) (by decide)).2.1⟩

/-! ## Device ids and stored counters along a run -/

theorem run_append (C : Crypto) (st : ProcState) (a b : List Event) :
    (run C st (a ++ b)).1 = (run C (run C st a).1 b).1 := by
  induction a generalizing st with
  | nil => rfl
  | cons e es ih =>
    have h := ih (step C st e).state
    simpa [run] using h

theorem assignedIds_append (C : Crypto) (st : ProcState) (a b : List Event) :
    assignedIds C st (a ++ b) = assignedIds C st a ++ assignedIds C (run C st a).1 b := by
  induction a generalizing st with
  | nil => rfl
  | cons e es ih =>
    have h := ih (step C st e).state
    simpa [run, assignedIds] using h

/-- The signup step either ends before step 3 and leaves the device registry
and the counter as they are, or stores one record with both counters 0 under
the old value of the counter and advances the counter modulo 2^32. -/
theorem signupStep_cases (C : Crypto) (st : ProcState) (signupReq : SignupReq)
    (queued : List Scan) (rnd : Option (List Nat)) :
    ((signupStep C st signupReq queued rnd).branch ≠ .signupDone ∧
      (signupStep C st signupReq queued rnd).branch ≠ .signupRespFailed ∧
      (signupStep C st signupReq queued rnd).state.sState = st.sState ∧
      (signupStep C st signupReq queued rnd).state.nextDevId = st.nextDevId) ∨
    (((signupStep C st signupReq queued rnd).branch = .signupDone
        ∨ (signupStep C st signupReq queued rnd).branch = .signupRespFailed) ∧
      ∃ d, (signupStep C st signupReq queued rnd).state.sState
            = st.sState.store st.nextDevId d ∧
      (signupStep C st signupReq queued rnd).state.nextDevId = (st.nextDevId + 1) % 2 ^ 32 ∧
      d.rebCnt = 0 ∧ d.reqCnt = 0) := by
  unfold signupStep
  simp only []
  repeat' split
  all_goals first
    | exact Or.inl ⟨by simp, by simp, rfl, rfl⟩
    | exact Or.inr ⟨Or.inl rfl, _, rfl, rfl, rfl, rfl⟩
    | exact Or.inr ⟨Or.inr rfl, _, rfl, rfl, rfl, rfl⟩

theorem signupStep_assigns (C : Crypto) (st : ProcState) (signupReq : SignupReq)
    (queued : List Scan) (rnd : Option (List Nat)) :
    (assignedId st (signupStep C st signupReq queued rnd) = none ∧
      (signupStep C st signupReq queued rnd).state.sState = st.sState ∧
      (signupStep C st signupReq queued rnd).state.nextDevId = st.nextDevId) ∨
    (assignedId st (signupStep C st signupReq queued rnd) = some st.nextDevId ∧
      ∃ d, (signupStep C st signupReq queued rnd).state.sState
            = st.sState.store st.nextDevId d ∧
      (signupStep C st signupReq queued rnd).state.nextDevId = (st.nextDevId + 1) % 2 ^ 32 ∧
      d.rebCnt = 0 ∧ d.reqCnt = 0) := by
  rcases signupStep_cases C st signupReq queued rnd with ⟨h1, h2, hs, hn⟩ | ⟨hb, hd⟩
  · exact Or.inl ⟨by simp [assignedId, h1, h2], hs, hn⟩
  · exact Or.inr ⟨by simp [assignedId, hb], hd⟩

theorem scanStep_assigns (st : ProcState) (scan : Scan) :
    assignedId st (scanStep st scan) = none := by
  have h : (scanStep st scan).branch ≠ .signupDone
      ∧ (scanStep st scan).branch ≠ .signupRespFailed := by
    unfold scanStep
    simp only []
    split_ifs <;> simp
  simp [assignedId, h.1, h.2]

theorem authStep_assigns (C : Crypto) (st : ProcState) (authReq : AuthReq) (now : Nat)
    (rnd : Option (List Nat)) :
    assignedId st (authStep C st authReq now rnd) = none := by
  have h : (authStep C st authReq now rnd).branch ≠ .signupDone
      ∧ (authStep C st authReq now rnd).branch ≠ .signupRespFailed := by
    cases hdev : st.sState authReq.DevId with
    | none => unfold authStep; simp [hdev]
    | some dev =>
      unfold authStep
      simp only [hdev]
      split_ifs
      · simp
      · simp
      · simp
      · simp
      · cases rnd <;> simp
  simp [assignedId, h.1, h.2]

theorem authStep_sState_isSome (C : Crypto) (st : ProcState) (authReq : AuthReq) (now : Nat)
    (rnd : Option (List Nat)) (id : Nat) (dev2 : DeviceState)
    (h : (authStep C st authReq now rnd).state.sState id = some dev2) :
    ∃ dev, st.sState id = some dev := by
  by_cases hid : id = authReq.DevId
  · subst hid
    cases hdev : st.sState authReq.DevId with
    | some dev => exact ⟨dev, rfl⟩
    | none =>
      have hst : (authStep C st authReq now rnd).state = st := by
        unfold authStep; simp [hdev]
      rw [hst, hdev] at h
      cases h
  · rw [authStep_sState_other C st authReq now rnd id hid] at h
    exact ⟨dev2, h⟩

theorem CountersLe.refl (s : ServerState) : CountersLe s s :=
  fun _ dev h => ⟨dev, h, Nat.le_refl _, Nat.le_refl _⟩

/-- One step of the event loop in a state in which `n` ids have been assigned,
when the u32 counter does not wrap in this step. -/
theorem step_counted (C : Crypto) (st : ProcState) (e : Event) (n : Nat)
    (hJ : IdsCounted st n)
    (hle : n + (assignedId st (step C st e)).toList.length ≤ 2 ^ 32) :
    (assignedId st (step C st e)).toList
      = List.range' n (assignedId st (step C st e)).toList.length ∧
    IdsCounted (step C st e).state (n + (assignedId st (step C st e)).toList.length) ∧
    CountersLe st.sState (step C st e).state.sState ∧
    (∀ id dev, st.sState id = some dev →
      ∀ signupReq queued rnd, e = .signup signupReq queued rnd →
        (step C st e).state.sState id = some dev) ∧
    (∀ id dev2, st.sState id = none → (step C st e).state.sState id = some dev2 →
      dev2.rebCnt = 0 ∧ dev2.reqCnt = 0) := by
  obtain ⟨hnext, hids⟩ := hJ
  cases e with
  | scan scan =>
    obtain ⟨hs, hn⟩ := scanStep_sState st scan
    have ha := scanStep_assigns st scan
    simp only [step] at hle ⊢
    rw [ha]
    simp only [Option.toList, List.length_nil, Nat.add_zero, List.range'_zero, true_and]
    refine ⟨⟨by rw [hn]; exact hnext, by rw [hs]; exact hids⟩, by rw [hs]; exact CountersLe.refl _,
      ?_, ?_⟩
    · intro id dev _ signupReq queued rnd he
      cases he
    · intro id dev2 h1 h2
      rw [hs, h1] at h2
      cases h2
  | auth authReq now rnd =>
    have ha := authStep_assigns C st authReq now rnd
    simp only [step] at hle ⊢
    rw [ha]
    simp only [Option.toList, List.length_nil, Nat.add_zero, List.range'_zero, true_and]
    refine ⟨⟨by rw [(authStep_nextDevId C st authReq now rnd).1]; exact hnext, ?_⟩,
      authStep_countersLe C st authReq now rnd, ?_, ?_⟩
    · intro id dev2 h2
      obtain ⟨dev, hdev⟩ := authStep_sState_isSome C st authReq now rnd id dev2 h2
      exact hids id dev hdev
    · intro id dev _ signupReq queued rnd2 he
      cases he
    · intro id dev2 h1 h2
      obtain ⟨dev, hdev⟩ := authStep_sState_isSome C st authReq now rnd id dev2 h2
      rw [h1] at hdev
      cases hdev
  | signup signupReq queued rnd =>
    simp only [step] at hle ⊢
    rcases signupStep_assigns C st signupReq queued rnd with ⟨ha, hs, hn⟩ | ⟨ha, d, hs, hn, hr, hq⟩
    · rw [ha]
      simp only [Option.toList, List.length_nil, Nat.add_zero, List.range'_zero, true_and]
      refine ⟨⟨by rw [hn]; exact hnext, by rw [hs]; exact hids⟩,
        by rw [hs]; exact CountersLe.refl _, ?_, ?_⟩
      · intro id dev h _ _ _ _
        rw [hs]; exact h
      · intro id dev2 h1 h2
        rw [hs, h1] at h2
        cases h2
    · rw [ha] at hle ⊢
      simp only [Option.toList, List.length_singleton] at hle ⊢
      have hlt : n < 2 ^ 32 := by omega
      have hnn : st.nextDevId = n := by rw [hnext]; exact Nat.mod_eq_of_lt hlt
      have hold : ∀ id dev, st.sState id = some dev → id ≠ st.nextDevId := by
        intro id dev h
        have := hids id dev h
        omega
      refine ⟨by rw [hnn]; rfl, ⟨by rw [hn, hnn], ?_⟩, ?_, ?_, ?_⟩
      · intro id dev h
        rw [hs] at h
        by_cases hid : id = st.nextDevId
        · omega
        · simp only [ServerState.store, hid, if_false] at h
          have := hids id dev h
          omega
      · intro id dev h
        rw [hs]
        exact ⟨dev, by simp [ServerState.store, hold id dev h, h], Nat.le_refl _, Nat.le_refl _⟩
      · intro id dev h _ _ _ _
        rw [hs]
        simp [ServerState.store, hold id dev h, h]
      · intro id dev2 h1 h2
        rw [hs] at h2
        by_cases hid : id = st.nextDevId
        · simp only [ServerState.store, hid, if_true, Option.some.injEq] at h2
          rw [← h2]; exact ⟨hr, hq⟩
        · simp only [ServerState.store, hid, if_false] at h2
          rw [h1] at h2
          cases h2

/-- A run of the event loop from a state in which `n` ids have been assigned,
when the u32 counter does not wrap before the last assignment of the run. -/
theorem run_counted (C : Crypto) (evs : List Event) (st : ProcState) (n : Nat)
    (hJ : IdsCounted st n) (hle : n + (assignedIds C st evs).length ≤ 2 ^ 32) :
    assignedIds C st evs = List.range' n (assignedIds C st evs).length ∧
    IdsCounted (run C st evs).1 (n + (assignedIds C st evs).length) := by
  induction evs generalizing st n with
  | nil => exact ⟨rfl, hJ⟩
  | cons e es ih =>
    simp only [assignedIds, List.length_append] at hle ⊢
    obtain ⟨h1, h2, _⟩ := step_counted C st e n hJ (by omega)
    obtain ⟨h3, h4⟩ := ih (step C st e).state _ h2 (by omega)
    refine ⟨?_, ?_⟩
    · calc (assignedId st (step C st e)).toList ++ assignedIds C (step C st e).state es
          = List.range' n (assignedId st (step C st e)).toList.length
              ++ List.range' (n + (assignedId st (step C st e)).toList.length)
                  (assignedIds C (step C st e).state es).length := by
            rw [← h1, ← h3]
        _ = List.range' n ((assignedIds C (step C st e).state es).length
              + (assignedId st (step C st e)).toList.length) := List.range'_append_1 _ _ _
        _ = List.range' n ((assignedId st (step C st e)).toList.length
              + (assignedIds C (step C st e).state es).length) := by rw [Nat.add_comm]
    · simp only [run]
      rw [Nat.add_assoc] at h4
      exact h4

theorem idsCounted_init : IdsCounted ProcState.init 0 :=
  ⟨rfl, fun id dev h => by simp [ProcState.init] at h⟩

/-- The state before an event of a run from the initial state with at most
2^32 assigned ids: the number of ids assigned so far is counted by the state,
and the event does not wrap the counter. -/
theorem before_event_counted (C : Crypto) (evs pre post : List Event) (e : Event)
    (h : (assignedIds C ProcState.init evs).length ≤ 2 ^ 32)
    (hsplit : evs = pre ++ e :: post) :
    ∃ n, IdsCounted (run C ProcState.init pre).1 n ∧
      n + (assignedId (run C ProcState.init pre).1
            (step C (run C ProcState.init pre).1 e)).toList.length ≤ 2 ^ 32 := by
  subst hsplit
  rw [assignedIds_append] at h
  simp only [assignedIds, List.length_append] at h
  obtain ⟨_, hJ⟩ := run_counted C pre ProcState.init 0 idsCounted_init (by omega)
  exact ⟨_, hJ, by omega⟩

/-- In a run from a state in which `n` ids have been assigned, when the u32
counter does not wrap before the last assignment of the run, every record
present at the start is still present at the end with both counters equal or
larger. -/
theorem run_countersLe (C : Crypto) (evs : List Event) (st : ProcState) (n : Nat)
    (hJ : IdsCounted st n) (hle : n + (assignedIds C st evs).length ≤ 2 ^ 32) :
    CountersLe st.sState (run C st evs).1.sState := by
  induction evs generalizing st n with
  | nil => exact CountersLe.refl _
  | cons e es ih =>
    simp only [assignedIds, List.length_append] at hle
    obtain ⟨_, h2, hc, _⟩ := step_counted C st e n hJ (by omega)
    have h3 := ih (step C st e).state _ h2 (by omega)
    simp only [run]
    exact hc.trans h3

/-- C9 (amended): in a run from the initial state in which at most 2^32 device
ids are assigned, if a non-dummy request of a device is accepted and its
counters are stored (the responding branch), then every request of that device
accepted later, dummy or not, has a reboot counter and a request counter at
least those of the first. -/
theorem accepted_after_stored_counters_ordered (C : Crypto) (pre mid : List Event)
    (r1 r2 : AuthReq) (now1 now2 : Nat) (rnd1 rnd2 : Option (List Nat))
    (hids : (assignedIds C ProcState.init
      (pre ++ Event.auth r1 now1 rnd1 :: (mid ++ [Event.auth r2 now2 rnd2]))).length ≤ 2 ^ 32)
    (hid : r2.DevId = r1.DevId)
    (h1 : (authStep C (run C ProcState.init pre).1 r1 now1 rnd1).branch = .authResponded)
    (h2 : (authStep C
            (run C (authStep C (run C ProcState.init pre).1 r1 now1 rnd1).state mid).1
            r2 now2 rnd2).branch.pastMac = true) :
    r1.RebCnt ≤ r2.RebCnt ∧ r1.ReqCnt ≤ r2.ReqCnt := by
  rw [assignedIds_append] at hids
  simp only [assignedIds, step, List.length_append] at hids
  rw [assignedIds_append] at hids
  simp only [List.length_append] at hids
  obtain ⟨_, hJ⟩ := run_counted C pre ProcState.init 0 idsCounted_init (by omega)
  obtain ⟨_, hJ2, _⟩ := step_counted C (run C ProcState.init pre).1 (Event.auth r1 now1 rnd1) _ hJ
    (by simp only [step]; omega)
  simp only [step] at hJ2
  have hc := run_countersLe C mid _ _ hJ2 (by omega)
  obtain ⟨d1, hd1, hreb1, hreq1⟩ := authStep_responded_stored C _ r1 now1 rnd1 h1
  obtain ⟨d2, hd2, hreb2, hreq2⟩ := hc _ d1 hd1
  obtain ⟨d3, hd3, hreb3, hreq3⟩ := authStep_pastMac_fresh C _ r2 now2 rnd2 h2
  rw [hid, hd2] at hd3
  cases hd3
  exact ⟨by omega, by omega⟩

set_option maxRecDepth 100000 in
/-- Witness for the theorem of C9: after the scan and the
signup of the fixture, `Fixture.sensorReq` (counters (2, 5)) is accepted and
stored, the stale `Fixture.staleReq` is rejected, and `Fixture.nextReq`
(counters (2, 6)) is accepted. -/
theorem accepted_after_stored_counters_ordered_witness :
    ((assignedIds Fixture.crypto ProcState.init
        ([.scan Fixture.scan0, .signup Fixture.signupReq0 [] (some (List.replicate 32 3))]
          ++ Event.auth Fixture.sensorReq 100 (some Fixture.nonce1)
            :: ([.auth Fixture.staleReq 101 none]
              ++ [Event.auth Fixture.nextReq 102 none]))).length ≤ 2 ^ 32 ∧
     (authStep Fixture.crypto
        (run Fixture.crypto ProcState.init
          [.scan Fixture.scan0,
           .signup Fixture.signupReq0 [] (some (List.replicate 32 3))]).1
        Fixture.sensorReq 100 (some Fixture.nonce1)).branch = .authResponded ∧
     (authStep Fixture.crypto
        (run Fixture.crypto
          (authStep Fixture.crypto
            (run Fixture.crypto ProcState.init
              [.scan Fixture.scan0,
               .signup Fixture.signupReq0 [] (some (List.replicate 32 3))]).1
            Fixture.sensorReq 100 (some Fixture.nonce1)).state
          [.auth Fixture.staleReq 101 none]).1
        Fixture.nextReq 102 none).branch.pastMac = true) ∧
    (Fixture.sensorReq.RebCnt ≤ Fixture.nextReq.RebCnt ∧
     Fixture.sensorReq.ReqCnt ≤ Fixture.nextReq.ReqCnt) :=
  ⟨by decide,
   accepted_after_stored_counters_ordered Fixture.crypto
     [.scan Fixture.scan0, .signup Fixture.signupReq0 [] (some (List.replicate 32 3))]
     [.auth Fixture.staleReq 101 none] Fixture.sensorReq Fixture.nextReq 100 102
     (some Fixture.nonce1) none (by decide) (by decide) (by decide) (by decide)⟩

/-- C14 (amended): in a run from the initial state in which at most 2^32
device ids are assigned, the ids assigned are 0, 1, 2, ... in this order (each
the previous plus one, none twice), and no signup of the run replaces a record
that is present in the device registry. -/
theorem signup_ids_sequential (C : Crypto) (evs : List Event)
    (h : (assignedIds C ProcState.init evs).length ≤ 2 ^ 32) :
    assignedIds C ProcState.init evs = List.range (assignedIds C ProcState.init evs).length ∧
    ∀ (pre post : List Event) (signupReq : SignupReq) (queued : List Scan)
      (rnd : Option (List Nat)),
      evs = pre ++ Event.signup signupReq queued rnd :: post →
      ∀ id dev, (run C ProcState.init pre).1.sState id = some dev →
        (signupStep C (run C ProcState.init pre).1 signupReq queued rnd).state.sState id
          = some dev := by
  refine ⟨?_, ?_⟩
  · obtain ⟨h1, _⟩ := run_counted C evs ProcState.init 0 idsCounted_init (by omega)
    rw [List.range_eq_range']
    exact h1
  · intro pre post signupReq queued rnd hsplit id dev hdev
    obtain ⟨n, hJ, hle⟩ := before_event_counted C evs pre post _ h hsplit
    obtain ⟨_, _, _, hkeep, _⟩ := step_counted C _ _ n hJ hle
    exact hkeep id dev hdev signupReq queued rnd rfl

set_option maxRecDepth 100000 in
/-- Witness for the theorem of C14: a scan and two signups; the ids assigned
are 0 and 1. -/
theorem signup_ids_sequential_witness :
    (assignedIds Fixture.crypto ProcState.init
        [.scan Fixture.scan0, Fixture.signupEv, .signup Fixture.signupReq1 [] Fixture.rnd0]).length
      ≤ 2 ^ 32 ∧
    assignedIds Fixture.crypto ProcState.init
        [.scan Fixture.scan0, Fixture.signupEv, .signup Fixture.signupReq1 [] Fixture.rnd0]
      = [0, 1] ∧
    assignedIds Fixture.crypto ProcState.init
        [.scan Fixture.scan0, Fixture.signupEv, .signup Fixture.signupReq1 [] Fixture.rnd0]
      = List.range (assignedIds Fixture.crypto ProcState.init
        [.scan Fixture.scan0, Fixture.signupEv,
         .signup Fixture.signupReq1 [] Fixture.rnd0]).length :=
  ⟨by decide, by decide,
   (signup_ids_sequential Fixture.crypto
     [.scan Fixture.scan0, Fixture.signupEv, .signup Fixture.signupReq1 [] Fixture.rnd0]
     (by decide)).1⟩

/-- C20 (amended): in a run from the initial state in which at most 2^32
device ids are assigned, every step leaves the reboot counter and the request
counter of every record present before it equal or larger, and a record that
a step creates has both counters 0. -/
theorem stored_counters_monotone (C : Crypto) (evs : List Event)
    (h : (assignedIds C ProcState.init evs).length ≤ 2 ^ 32) :
    ∀ (pre post : List Event) (e : Event), evs = pre ++ e :: post →
      ∀ id,
        (∀ dev, (run C ProcState.init pre).1.sState id = some dev →
          ∃ dev2, (step C (run C ProcState.init pre).1 e).state.sState id = some dev2 ∧
            dev.rebCnt ≤ dev2.rebCnt ∧ dev.reqCnt ≤ dev2.reqCnt) ∧
        (∀ dev2, (run C ProcState.init pre).1.sState id = none →
          (step C (run C ProcState.init pre).1 e).state.sState id = some dev2 →
          dev2.rebCnt = 0 ∧ dev2.reqCnt = 0) := by
  intro pre post e hsplit id
  obtain ⟨n, hJ, hle⟩ := before_event_counted C evs pre post e h hsplit
  obtain ⟨_, _, hmono, _, hnew⟩ := step_counted C _ e n hJ hle
  exact ⟨fun dev hdev => hmono id dev hdev, fun dev2 h1 h2 => hnew id dev2 h1 h2⟩

set_option maxRecDepth 100000 in
/-- Witness for the theorem of C20: the scan and the signup of the fixture
followed by the accepted `Fixture.sensorReq`, which raises the counters of
device 0 from (0, 0) to (2, 5). -/
theorem stored_counters_monotone_witness :
    ((assignedIds Fixture.crypto ProcState.init
        [.scan Fixture.scan0, Fixture.signupEv,
         .auth Fixture.sensorReq 100 (some Fixture.nonce1)]).length ≤ 2 ^ 32 ∧
     (run Fixture.crypto ProcState.init [.scan Fixture.scan0, Fixture.signupEv]).1.sState 0
       = some (Fixture.device Fixture.st1 0)) ∧
    ∃ dev2,
      (step Fixture.crypto
          (run Fixture.crypto ProcState.init [.scan Fixture.scan0, Fixture.signupEv]).1
          (.auth Fixture.sensorReq 100 (some Fixture.nonce1))).state.sState 0 = some dev2 ∧
      (Fixture.device Fixture.st1 0).rebCnt ≤ dev2.rebCnt ∧
      (Fixture.device Fixture.st1 0).reqCnt ≤ dev2.reqCnt :=
  ⟨by decide,
   ((stored_counters_monotone Fixture.crypto
      [.scan Fixture.scan0, Fixture.signupEv, .auth Fixture.sensorReq 100 (some Fixture.nonce1)]
      (by decide) [.scan Fixture.scan0, Fixture.signupEv] []
      (.auth Fixture.sensorReq 100 (some Fixture.nonce1)) rfl 0).1
     (Fixture.device Fixture.st1 0) (by decide))⟩

/-- A run of `n` identical signups without queued scans, each of which finds
its scan and succeeds in its key agreement, from a state whose counter is at
most `2^32 - n`: the counter advances by `n` modulo 2^32, records with ids
below the old counter are untouched, and the ids from the old counter on hold
records of the connection of the request. -/
theorem run_replicate_signup (C : Crypto) (signupReq : SignupReq) (rnd : Option (List Nat))
    (scan : Scan) (xSlice xP s1 s2 : List Nat)
    (hkp : createEphemeralKeyPair C rnd = some (xSlice, xP))
    (h1 : diffieHellman C (goCopy (zeros KEY_LEN) xSlice) signupReq.SPubGW = some s1)
    (h2 : diffieHellman C (goCopy (zeros KEY_LEN) xSlice) signupReq.EPubGw = some s2)
    (n : Nat) (st : ProcState)
    (hscan : st.scans signupReq.SPubGW = some scan)
    (hm : st.nextDevId < 2 ^ 32) (hn : st.nextDevId + n ≤ 2 ^ 32) :
    (run C st (List.replicate n (Event.signup signupReq [] rnd))).1.nextDevId
      = (st.nextDevId + n) % 2 ^ 32 ∧
    (run C st (List.replicate n (Event.signup signupReq [] rnd))).1.scans = st.scans ∧
    (∀ id, id < st.nextDevId →
      (run C st (List.replicate n (Event.signup signupReq [] rnd))).1.sState id
        = st.sState id) ∧
    (∀ id, st.nextDevId ≤ id → id < st.nextDevId + n →
      ∃ d, (run C st (List.replicate n (Event.signup signupReq [] rnd))).1.sState id = some d ∧
        d.Conn = signupReq.Conn) := by
  induction n with
  | zero =>
    refine ⟨?_, rfl, fun _ _ => rfl, ?_⟩
    · simp only [List.replicate_zero, run, Nat.add_zero]
      exact (Nat.mod_eq_of_lt hm).symm
    · intro id ha hb
      omega
  | succ k ih =>
    obtain ⟨hnext, hsc, hlow, hnew⟩ := ih (by omega)
    have hk : (st.nextDevId + k) % 2 ^ 32 = st.nextDevId + k := Nat.mod_eq_of_lt (by omega)
    rw [hk] at hnext
    rw [List.replicate_succ', run_append]
    have hres := resolveScan_of_present
      (run C st (List.replicate k (Event.signup signupReq [] rnd))).1.scans
      signupReq.SPubGW [] scan (by rw [hsc]; exact hscan)
    obtain ⟨_, _, hn2, hs2, hst2⟩ := signupStep_of_resolved C
      (run C st (List.replicate k (Event.signup signupReq [] rnd))).1 signupReq [] rnd
      _ scan xSlice xP s1 s2 hres hkp h1 h2
    simp only [run, step]
    rw [hn2, hs2, hst2, hnext]
    refine ⟨by rw [Nat.add_assoc], hsc, ?_, ?_⟩
    · intro id hid
      have hne : id ≠ st.nextDevId + k := by omega
      simp only [ServerState.store, hne, if_false]
      exact hlow id hid
    · intro id ha hb
      by_cases hid : id = st.nextDevId + k
      · rw [hid]
        exact ⟨_, ServerState.store_self _ _ _, rfl⟩
      · simp only [ServerState.store, hid, if_false]
        exact hnew id ha (by omega)

theorem run_cons (C : Crypto) (st : ProcState) (e : Event) (es : List Event) :
    (run C st (e :: es)).1 = (run C (step C st e).state es).1 := rfl

theorem Fixture.afterSignups_eq (n : Nat) :
    Fixture.afterSignups n
      = (run Fixture.crypto (step Fixture.crypto ProcState.init (Event.scan Fixture.scan0)).state
          (List.replicate n (Event.signup Fixture.signupReq0 [] Fixture.rnd0))).1 := rfl

set_option maxRecDepth 100000 in
/-- The state after the scan of `Fixture.scan0` and `n ≤ 2^32` signups: the
counter is `n` modulo 2^32, the scan is registered, and the ids below `n` hold
records of connection 1. -/
theorem Fixture.afterSignups_spec (n : Nat) (hn : n ≤ 2 ^ 32) :
    (Fixture.afterSignups n).nextDevId = n % 2 ^ 32 ∧
    (Fixture.afterSignups n).scans Fixture.key0 = some Fixture.scan0 ∧
    ∀ id, id < n → ∃ d, (Fixture.afterSignups n).sState id = some d ∧ d.Conn = 1 := by
  have h0 : (step Fixture.crypto ProcState.init (Event.scan Fixture.scan0)).state.nextDevId
      = 0 := by decide
  obtain ⟨h1, h2, _, h4⟩ :=
    run_replicate_signup Fixture.crypto Fixture.signupReq0 Fixture.rnd0 Fixture.scan0
      _ _ _ _ rfl rfl rfl n
      (step Fixture.crypto ProcState.init (Event.scan Fixture.scan0)).state
      (by decide) (by decide) (by rw [h0]; omega)
  rw [Fixture.afterSignups_eq, h1, h2, h0]
  refine ⟨by rw [Nat.zero_add], by decide, ?_⟩
  intro id hid
  exact h4 id (by rw [h0]; omega) (by rw [h0]; omega)

set_option maxRecDepth 100000 in
/-- When the counter is back at 0 after `n` signups, the signup of
`Fixture.signupReq1` is assigned id 0 and replaces the record of device 0. -/
theorem Fixture.afterSignups_wrap (n : Nat) (hn : n ≤ 2 ^ 32) (hpos : 0 < n)
    (hw : n % 2 ^ 32 = 0) :
    ((Fixture.afterSignups n).sState 0).map DeviceState.Conn = some 1 ∧
    assignedId (Fixture.afterSignups n)
        (step Fixture.crypto (Fixture.afterSignups n)
          (.signup Fixture.signupReq1 [] Fixture.rnd0)) = some 0 ∧
    ((step Fixture.crypto (Fixture.afterSignups n)
        (.signup Fixture.signupReq1 [] Fixture.rnd0)).state.sState 0).map DeviceState.Conn
      = some 2 := by
  obtain ⟨hnext, hsc, hdev⟩ := Fixture.afterSignups_spec n hn
  rw [hw] at hnext
  obtain ⟨d, hd, hc⟩ := hdev 0 hpos
  obtain ⟨hb, _, _, _, hs⟩ := signupStep_of_resolved Fixture.crypto (Fixture.afterSignups n)
    Fixture.signupReq1 [] Fixture.rnd0 _ Fixture.scan0 _ _ _ _
    (resolveScan_of_present _ _ _ _ hsc) rfl rfl rfl
  refine ⟨by rw [hd, ← hc]; rfl, ?_, ?_⟩
  · simp only [step, assignedId, hb, true_or, if_true, hnext]
  · simp only [step]
    rw [hs, hnext, ServerState.store_self]
    rfl

set_option maxRecDepth 100000 in
/-- C14 (as stated, refuted): after the scan of `Fixture.scan0` the first
signup is assigned id 0.  After 2^32 signups device 0 is registered
(connection 1) and the u32 counter is 0 again; the next signup, of
`Fixture.signupReq1` on connection 2, is assigned id 0 a second time and
replaces the record of device 0. -/
theorem signup_id_reused_after_wrap :
    assignedIds Fixture.crypto ProcState.init [.scan Fixture.scan0, Fixture.signupEv] = [0] ∧
    ((Fixture.afterSignups (2 ^ 32)).sState 0).map DeviceState.Conn = some 1 ∧
    assignedId (Fixture.afterSignups (2 ^ 32))
        (step Fixture.crypto (Fixture.afterSignups (2 ^ 32))
          (.signup Fixture.signupReq1 [] Fixture.rnd0)) = some 0 ∧
    ((step Fixture.crypto (Fixture.afterSignups (2 ^ 32))
        (.signup Fixture.signupReq1 [] Fixture.rnd0)).state.sState 0).map DeviceState.Conn
      = some 2 :=
  ⟨by decide, Fixture.afterSignups_wrap (2 ^ 32) (Nat.le_refl _) (by decide) (by decide)⟩

theorem Fixture.agedAfter_eq (n : Nat) :
    Fixture.agedAfter n
      = (run Fixture.crypto
          (run Fixture.crypto ProcState.init
            [.scan Fixture.scan0, Fixture.signupEv,
             .auth Fixture.sensorReq 100 (some Fixture.nonce1)]).1
          (List.replicate n (Event.signup Fixture.signupReq0 [] Fixture.rnd0))).1 :=
  run_append Fixture.crypto ProcState.init _ _

set_option maxRecDepth 100000 in
/-- The state after the scan and the signup of the fixture, the accepted
`Fixture.sensorReq` and `n < 2^32` further signups: the counter is `n + 1`
modulo 2^32, the scan is registered, and device 0 still has the counters
(2, 5) that `Fixture.sensorReq` stored. -/
theorem Fixture.agedAfter_spec (n : Nat) (hn : n + 1 ≤ 2 ^ 32) :
    (Fixture.agedAfter n).nextDevId = (n + 1) % 2 ^ 32 ∧
    (Fixture.agedAfter n).scans Fixture.key0 = some Fixture.scan0 ∧
    ((Fixture.agedAfter n).sState 0).map (fun d => (d.rebCnt, d.reqCnt)) = some (2, 5) := by
  have h0 : (run Fixture.crypto ProcState.init
      [.scan Fixture.scan0, Fixture.signupEv,
       .auth Fixture.sensorReq 100 (some Fixture.nonce1)]).1.nextDevId = 1 := by decide
  obtain ⟨h1, h2, h3, _⟩ :=
    run_replicate_signup Fixture.crypto Fixture.signupReq0 Fixture.rnd0 Fixture.scan0
      _ _ _ _ rfl rfl rfl n
      (run Fixture.crypto ProcState.init
        [.scan Fixture.scan0, Fixture.signupEv,
         .auth Fixture.sensorReq 100 (some Fixture.nonce1)]).1
      (by decide) (by decide) (by rw [h0]; omega)
  rw [Fixture.agedAfter_eq, h1, h2, h3 0 (by rw [h0]; omega), h0]
  exact ⟨by rw [Nat.add_comm], by decide, by decide⟩

set_option maxRecDepth 100000 in
/-- When the counter is back at 0 after `n` further signups, one more signup
stores a new record under id 0 and the counters of that id drop from (2, 5)
to (0, 0). -/
theorem Fixture.agedAfter_wrap (n : Nat) (hn : n + 1 ≤ 2 ^ 32) (hw : (n + 1) % 2 ^ 32 = 0) :
    ((Fixture.agedAfter n).sState 0).map (fun d => (d.rebCnt, d.reqCnt)) = some (2, 5) ∧
    ((step Fixture.crypto (Fixture.agedAfter n) Fixture.signupEv).state.sState 0).map
        (fun d => (d.rebCnt, d.reqCnt)) = some (0, 0) := by
  obtain ⟨hnext, hsc, hcnt⟩ := Fixture.agedAfter_spec n hn
  rw [hw] at hnext
  obtain ⟨_, _, _, _, hs⟩ := signupStep_of_resolved Fixture.crypto (Fixture.agedAfter n)
    Fixture.signupReq0 [] Fixture.rnd0 _ Fixture.scan0 _ _ _ _
    (resolveScan_of_present _ _ _ _ hsc) rfl rfl rfl
  refine ⟨hcnt, ?_⟩
  simp only [Fixture.signupEv, step]
  rw [hs, hnext, ServerState.store_self]
  rfl

set_option maxRecDepth 100000 in
/-- C20 (as stated, refuted): after a scan, a signup, the accepted
`Fixture.sensorReq` and 2^32 - 1 further signups device 0 has counters (2, 5)
and the u32 counter is 0 again; the next signup stores a new record under id 0,
and the counters stored under that id drop to (0, 0). -/
theorem stored_counters_reset_after_wrap :
    ((Fixture.agedAfter (2 ^ 32 - 1)).sState 0).map (fun d => (d.rebCnt, d.reqCnt))
      = some (2, 5) ∧
    ((step Fixture.crypto (Fixture.agedAfter (2 ^ 32 - 1)) Fixture.signupEv).state.sState 0).map
        (fun d => (d.rebCnt, d.reqCnt)) = some (0, 0) :=
  Fixture.agedAfter_wrap (2 ^ 32 - 1) (by decide) (by decide)

/-- The branch of the auth step depends on the state only through the record
of the addressed device. -/
theorem authStep_branch_congr (C : Crypto) (st st2 : ProcState) (authReq : AuthReq)
    (now : Nat) (rnd : Option (List Nat))
    (h : st.sState authReq.DevId = st2.sState authReq.DevId) :
    (authStep C st authReq now rnd).branch = (authStep C st2 authReq now rnd).branch := by
  cases hdev : st2.sState authReq.DevId with
  | none =>
    rw [hdev] at h
    unfold authStep
    simp [h, hdev]
  | some dev =>
    rw [hdev] at h
    unfold authStep
    simp only [h, hdev]
    split_ifs
    · rfl
    · rfl
    · rfl
    · rfl
    · cases rnd <;> rfl

set_option maxRecDepth 100000 in
/-- When the counter is back at 0 after `n` further signups, one more signup of
`Fixture.signupReq0` stores under id 0 the record that the first signup had
stored there (same keys, counters (0, 0)), and `Fixture.lowReq` with counters
(1, 1) is accepted. -/
theorem Fixture.agedAfter_wrap_accepts (n : Nat) (hn : n + 1 ≤ 2 ^ 32)
    (hw : (n + 1) % 2 ^ 32 = 0) :
    (authStep Fixture.crypto
        (step Fixture.crypto (Fixture.agedAfter n) Fixture.signupEv).state
        Fixture.lowReq 8 (some Fixture.nonce1)).branch = .authResponded := by
  obtain ⟨hnext, hsc, _⟩ := Fixture.agedAfter_spec n hn
  rw [hw] at hnext
  obtain ⟨_, _, _, _, hs⟩ := signupStep_of_resolved Fixture.crypto (Fixture.agedAfter n)
    Fixture.signupReq0 [] Fixture.rnd0 _ Fixture.scan0 _ _ _ _
    (resolveScan_of_present _ _ _ _ hsc) rfl rfl rfl
  have hrec : (step Fixture.crypto (Fixture.agedAfter n) Fixture.signupEv).state.sState
      Fixture.lowReq.DevId = Fixture.st1.sState Fixture.lowReq.DevId := by
    simp only [Fixture.signupEv, step]
    rw [hs, hnext]
    have h0 : Fixture.lowReq.DevId = 0 := by decide
    rw [h0, ServerState.store_self]
    decide
  rw [authStep_branch_congr Fixture.crypto _ Fixture.st1 Fixture.lowReq 8
    (some Fixture.nonce1) hrec]
  decide

set_option maxRecDepth 100000 in
/-- C9 (as stated, refuted), in two ways.  In `Fixture.st1` device 0 has counters
(0, 0).  The pairing confirmation `Fixture.dummyHighReq` with counters (5, 5)
is accepted (counter checks and MAC comparison passed); it stores no counters.
The request `Fixture.lowReq` with counters (1, 1), handled next, is accepted as
well, and both of its counters are below those of the first.  And after
`Fixture.sensorReq` with counters (2, 5) has been accepted and stored in
`Fixture.st1`, 2^32 further signups take the u32 counter around to id 0 and
store a new record there; `Fixture.lowReq` with counters (1, 1) is accepted
after them. -/
theorem accepted_with_lower_counters_after_dummy_or_wrap :
    ((authStep Fixture.crypto Fixture.st1 Fixture.dummyHighReq 7 none).branch = .authDummy ∧
     (authStep Fixture.crypto
        (authStep Fixture.crypto Fixture.st1 Fixture.dummyHighReq 7 none).state
        Fixture.lowReq 8 (some Fixture.nonce1)).branch = .authResponded ∧
     Fixture.lowReq.DevId = Fixture.dummyHighReq.DevId ∧
     Fixture.lowReq.RebCnt < Fixture.dummyHighReq.RebCnt ∧
     Fixture.lowReq.ReqCnt < Fixture.dummyHighReq.ReqCnt) ∧
    ((authStep Fixture.crypto Fixture.st1 Fixture.sensorReq 100
        (some Fixture.nonce1)).branch = .authResponded ∧
     Fixture.lowReq.DevId = Fixture.sensorReq.DevId ∧
     Fixture.lowReq.RebCnt < Fixture.sensorReq.RebCnt ∧
     Fixture.lowReq.ReqCnt < Fixture.sensorReq.ReqCnt) ∧
    (authStep Fixture.crypto
        (step Fixture.crypto (Fixture.agedAfter (2 ^ 32 - 1)) Fixture.signupEv).state
        Fixture.lowReq 8 (some Fixture.nonce1)).branch = .authResponded :=
  ⟨by decide, by decide,
   Fixture.agedAfter_wrap_accepts (2 ^ 32 - 1) (by decide) (by decide)⟩

set_option maxRecDepth 100000 in
/-- C16 (failing input): from the initial state, the signup of
`Fixture.signupReq0` while `Fixture.scan0` is queued.  Afterwards the scan
registry has the key `Fixture.key0`, and the record stored under it has a
static key of 32 zero bytes, not `Fixture.key0`, and a preshared key of 32 zero
bytes, not the preshared key of the one scan received for that key. -/
theorem scan_registry_entry_not_keyed :
    ((run Fixture.crypto ProcState.init
        [.signup Fixture.signupReq0 [Fixture.scan0] Fixture.rnd0]).1.scans Fixture.key0).map
        Scan.SPubGW = some (zeros 32) ∧
    zeros 32 ≠ Fixture.key0 ∧
    ((run Fixture.crypto ProcState.init
        [.signup Fixture.signupReq0 [Fixture.scan0] Fixture.rnd0]).1.scans Fixture.key0).map
        Scan.Psk = some (zeros 32) ∧
    zeros 32 ≠ Fixture.scan0.Psk := by
  decide

/-! ## Wire codec: headers of other types and AuthRequest payloads -/

/-- C21: a 3-byte header whose type code is not 0.  When the type code is not 2
`parseHeader` returns `InvalidPayloadType`; when it is 2 it returns
`Header{2, 46}` if bytes 1-2 declare 46 as a little-endian u16 and
`InvalidPayloadLen` for every other declared length.  So the only header it
accepts is `Header{2, 46}`, and after a type-2 header with another declared
length the read loop goes on with the bytes behind the header without a call
of `processPayload`, hence of `parseAuthReq`. -/
theorem parseHeader_non_signup (b0 b1 b2 : Nat) (h0 : b0 ≠ PAYLOAD_SIGNUP_REQ) :
    (b0 ≠ PAYLOAD_AUTH_REQ → parseHeader [b0, b1, b2] = .fail (.InvalidPayloadType b0)) ∧
    (b0 = PAYLOAD_AUTH_REQ → b1 + 256 * b2 = 46 →
      parseHeader [b0, b1, b2] = .ok { PayloadType := 2, PayloadLen := 46 }) ∧
    (b0 = PAYLOAD_AUTH_REQ → b1 + 256 * b2 ≠ 46 →
      parseHeader [b0, b1, b2] = .fail (.InvalidPayloadLen 2 (b1 + 256 * b2)) ∧
      ∀ (conn fuel : Nat) (rest : List Nat),
        connLoop conn (fuel + 1) ([b0, b1, b2] ++ rest) = connLoop conn fuel rest) ∧
    (∀ hd, parseHeader [b0, b1, b2] = .ok hd → hd = { PayloadType := 2, PayloadLen := 46 }) := by
  have hlen : PAYLOAD_LENS[2]? = some 46 := by decide
  simp only [PAYLOAD_SIGNUP_REQ, PAYLOAD_AUTH_REQ] at h0 ⊢
  have hbad : b0 = 2 → b1 + 256 * b2 ≠ 46 →
      parseHeader [b0, b1, b2] = .fail (.InvalidPayloadLen 2 (b1 + 256 * b2)) := by
    intro h2 hl
    subst h2
    simp [parseHeader, PAYLOAD_SIGNUP_REQ, PAYLOAD_AUTH_REQ, goSliceFrom, leUint16, hlen, hl]
  have hgood : b0 = 2 → b1 + 256 * b2 = 46 →
      parseHeader [b0, b1, b2] = .ok { PayloadType := 2, PayloadLen := 46 } := by
    intro h2 hl
    subst h2
    simp [parseHeader, PAYLOAD_SIGNUP_REQ, PAYLOAD_AUTH_REQ, goSliceFrom, leUint16, hlen, hl]
  have hty : b0 ≠ 2 → parseHeader [b0, b1, b2] = .fail (.InvalidPayloadType b0) := by
    intro h2
    simp [parseHeader, PAYLOAD_SIGNUP_REQ, PAYLOAD_AUTH_REQ, h0, h2]
  refine ⟨hty, hgood, ?_, ?_⟩
  · intro h2 hl
    refine ⟨hbad h2 hl, ?_⟩
    intro conn fuel rest
    have e1 : (b0 :: b1 :: b2 :: rest).take 3 = [b0, b1, b2] := rfl
    have e2 : (b0 :: b1 :: b2 :: rest).drop 3 = rest := rfl
    simp [connLoop, HEADER_LEN, hbad h2 hl]
  · intro hd hok
    by_cases h2 : b0 = 2
    · by_cases hl : b1 + 256 * b2 = 46
      · rw [hgood h2 hl] at hok
        cases hok
        rfl
      · rw [hbad h2 hl] at hok
        cases hok
    · rw [hty h2] at hok
      cases hok

/-- Witness for the theorem of C21: the header `[2, 45, 0]`, which declares 45
bytes. -/
theorem parseHeader_non_signup_witness :
    (2 : Nat) ≠ PAYLOAD_SIGNUP_REQ ∧
    parseHeader [2, 45, 0] = .fail (.InvalidPayloadLen 2 45) ∧
    ∀ (conn fuel : Nat) (rest : List Nat),
      connLoop conn (fuel + 1) ([2, 45, 0] ++ rest) = connLoop conn fuel rest :=
  ⟨by decide, (parseHeader_non_signup 2 45 0 (by decide)).2.2.1 (by decide) (by decide)⟩

/-- C22: on a payload of 46 bytes `parseAuthReq` succeeds exactly when the
little-endian u16 at bytes 12-13 is at most 3 or equals 0x69, and otherwise
returns `InvalidAccessType` with that value; on success `DevId`, `RebCnt` and
`ReqCnt` are the little-endian u32 values at bytes 0-3, 4-7 and 8-11,
`AccessType` is that u16 and `MacTag` is the 32 bytes at offsets 14-45. -/
theorem parseAuthReq_decodes (p : List Nat) (h : p.length = LEN_PAYLOAD_AUTH_REQ) :
    parseAuthReq p
      = (if p.getD 12 0 + 256 * p.getD 13 0 ∈ [0, 1, 2, 3]
            ∨ p.getD 12 0 + 256 * p.getD 13 0 = 0x69 then
          .ok { DevId := p.getD 0 0 + 256 * p.getD 1 0 + 65536 * p.getD 2 0
                  + 16777216 * p.getD 3 0,
                RebCnt := p.getD 4 0 + 256 * p.getD 5 0 + 65536 * p.getD 6 0
                  + 16777216 * p.getD 7 0,
                ReqCnt := p.getD 8 0 + 256 * p.getD 9 0 + 65536 * p.getD 10 0
                  + 16777216 * p.getD 11 0,
                AccessType := p.getD 12 0 + 256 * p.getD 13 0,
                MacTag := p.drop 14 }
        else .fail (.InvalidAccessType (p.getD 12 0 + 256 * p.getD 13 0))) ∧
    (p.drop 14).length = 32 ∧
    (∀ i, i < 32 → (p.drop 14).getD i 0 = p.getD (14 + i) 0) ∧
    ((∃ r, parseAuthReq p = .ok r) ↔
      (p.getD 12 0 + 256 * p.getD 13 0 ∈ [0, 1, 2, 3]
        ∨ p.getD 12 0 + 256 * p.getD 13 0 = 0x69)) := by
  have h46 : p.length = 46 := h
  match p, h46 with
  | b0 :: b1 :: b2 :: b3 :: b4 :: b5 :: b6 :: b7 :: b8 :: b9 :: b10 :: b11 :: b12 :: b13 :: rest,
    h46 =>
    have hrest : rest.length = 32 := by
      simp only [List.length_cons] at h46
      omega
    have heq : parseAuthReq
        (b0 :: b1 :: b2 :: b3 :: b4 :: b5 :: b6 :: b7 :: b8 :: b9 :: b10 :: b11 :: b12 :: b13
          :: rest)
        = (if b12 + 256 * b13 ∈ [0, 1, 2, 3] ∨ b12 + 256 * b13 = 0x69 then
            .ok { DevId := b0 + 256 * b1 + 65536 * b2 + 16777216 * b3,
                  RebCnt := b4 + 256 * b5 + 65536 * b6 + 16777216 * b7,
                  ReqCnt := b8 + 256 * b9 + 65536 * b10 + 16777216 * b11,
                  AccessType := b12 + 256 * b13,
                  MacTag := rest }
          else .fail (.InvalidAccessType (b12 + 256 * b13))) := by
      simp only [parseAuthReq, leUint32, goSliceFrom, DEVICE_ID_LEN, REB_CNT_LEN, REQ_CNT_LEN,
        ACCESS_TYPE_LEN, List.length_cons, hrest]
      simp only [Nat.reduceAdd, Nat.reduceLeDiff, if_true, Option.bind, List.drop, leUint32,
        leUint16, SAMPLE_SENSOR_0, CONTROL_ACTUATOR_1, DUMMY_REQUEST]
      by_cases hat : b12 + 256 * b13 ∈ [0, 1, 2, 3] ∨ b12 + 256 * b13 = 0x69
      · have hn : ¬ ((b12 + 256 * b13 < 0 ∨ b12 + 256 * b13 > 3) ∧ b12 + 256 * b13 ≠ 105) := by
          simp only [List.mem_cons, List.mem_singleton, List.not_mem_nil, or_false] at hat
          omega
        rw [if_neg hn, if_pos hat]
      · have hy : (b12 + 256 * b13 < 0 ∨ b12 + 256 * b13 > 3) ∧ b12 + 256 * b13 ≠ 105 := by
          simp only [List.mem_cons, List.mem_singleton, List.not_mem_nil, or_false] at hat
          omega
        rw [if_pos hy, if_neg hat]
    refine ⟨?_, ?_, ?_, ?_⟩
    · rw [heq]
      rfl
    · simpa using hrest
    · intro i hi
      rw [show 14 + i = i + 14 from by omega]
      rfl
    · rw [heq]
      constructor
      · rintro ⟨r, hr⟩
        by_contra hat
        simp only [List.getD_cons_succ, List.getD_cons_zero] at hat
        rw [if_neg hat] at hr
        cases hr
      · intro hat
        simp only [List.getD_cons_succ, List.getD_cons_zero] at hat
        rw [if_pos hat]
        exact ⟨_, rfl⟩

set_option maxRecDepth 100000 in
/-- Witness for the theorem of C22: the 46-byte payload of device 258 with
access type 1 and a tag of 32 bytes 0x09. -/
theorem parseAuthReq_decodes_witness :
    ([2, 1, 0, 0, 3, 0, 0, 0, 4, 0, 0, 0, 1, 0] ++ List.replicate 32 9).length
      = LEN_PAYLOAD_AUTH_REQ ∧
    parseAuthReq ([2, 1, 0, 0, 3, 0, 0, 0, 4, 0, 0, 0, 1, 0] ++ List.replicate 32 9)
      = .ok { DevId := 258, RebCnt := 3, ReqCnt := 4, AccessType := 1,
              MacTag := List.replicate 32 9 } :=
  ⟨by decide,
   (parseAuthReq_decodes ([2, 1, 0, 0, 3, 0, 0, 0, 4, 0, 0, 0, 1, 0] ++ List.replicate 32 9)
     (by decide)).1⟩

/-! ## Committed record, log entries and frame of the auth step -/

/-- The scan that step 1.1 of the signup case resolves is the entry the
registry holds under the request's static key afterwards; it is resolved
exactly when the key was in the registry or is received from the queue. -/
theorem resolveScan_found (scans : Scans) (sPubGw : List Nat) (queued : List Scan) :
    ((resolveScan scans sPubGw queued).2.2 = true →
      (resolveScan scans sPubGw queued).1 sPubGw = some (resolveScan scans sPubGw queued).2.1) ∧
    ((resolveScan scans sPubGw queued).2.2 = true ↔
      ((scans sPubGw).isSome = true ∨ sPubGw ∈ queued.map Scan.SPubGW)) := by
  unfold resolveScan Scans.lookup
  cases h : scans sPubGw with
  | some v => simp [h]
  | none =>
    have hd := drainScans_apply scans queued sPubGw
    simp only [h, Option.isSome_none, Bool.false_eq_true, if_false] at hd
    by_cases hq : sPubGw ∈ queued.map Scan.SPubGW
    · simp only [hq, if_true] at hd
      simp [hd, hq]
    · simp only [hq, if_false] at hd
      simp [hd, hq]

/-- C23: a signup step that reaches the end of the case has committed, under
the id it assigned (the value of `nextDevId` before the step), a record whose
`Id` is that key, with `Paired = false`, an empty log, both counters 0,
`LastRandomness` 16 zero bytes, `Type` and `CapURI` those of the request, and
`ScanData` the scan resolved in step 1.1, which is the entry the scan registry
holds under the request's static key. -/
theorem signup_committed_record (C : Crypto) (st : ProcState) (signupReq : SignupReq)
    (queued : List Scan) (rnd : Option (List Nat))
    (h : (signupStep C st signupReq queued rnd).branch = .signupDone) :
    ∃ dev, (signupStep C st signupReq queued rnd).state.sState st.nextDevId = some dev ∧
      dev.Id = st.nextDevId ∧ dev.Paired = false ∧ dev.Log = [] ∧
      dev.rebCnt = 0 ∧ dev.reqCnt = 0 ∧ dev.LastRandomness = List.replicate 16 0 ∧
      dev.Type_ = signupReq.DevType ∧ dev.CapURI = signupReq.CapURI ∧
      dev.Conn = signupReq.Conn ∧
      dev.ScanData = (resolveScan st.scans signupReq.SPubGW queued).2.1 ∧
      (signupStep C st signupReq queued rnd).state.scans signupReq.SPubGW
        = some dev.ScanData := by
  obtain ⟨xSlice, xP, s1, s2, respMsg, hex, _, _, _, _, _, _, hsc, hs⟩ :=
    signupStep_done C st signupReq queued rnd h
  rw [hs, hsc]
  exact ⟨_, ServerState.store_self _ _ _, rfl, rfl, rfl, rfl, rfl, rfl, rfl, rfl, rfl, rfl,
    (resolveScan_found st.scans signupReq.SPubGW queued).1 hex⟩

set_option maxRecDepth 100000 in
/-- Witness for the theorem of C23: the signup of `Fixture.signupReq0` after
the scan of `Fixture.scan0`. -/
theorem signup_committed_record_witness :
    (signupStep Fixture.crypto (scanStep ProcState.init Fixture.scan0).state
        Fixture.signupReq0 [] Fixture.rnd0).branch = .signupDone ∧
    ∃ dev, (signupStep Fixture.crypto (scanStep ProcState.init Fixture.scan0).state
        Fixture.signupReq0 [] Fixture.rnd0).state.sState
          (scanStep ProcState.init Fixture.scan0).state.nextDevId = some dev ∧
      dev.Id = (scanStep ProcState.init Fixture.scan0).state.nextDevId ∧
      dev.Paired = false ∧ dev.Log = [] ∧
      dev.rebCnt = 0 ∧ dev.reqCnt = 0 ∧ dev.LastRandomness = List.replicate 16 0 ∧
      dev.Type_ = Fixture.signupReq0.DevType ∧ dev.CapURI = Fixture.signupReq0.CapURI ∧
      dev.Conn = Fixture.signupReq0.Conn ∧
      dev.ScanData = (resolveScan (scanStep ProcState.init Fixture.scan0).state.scans
        Fixture.signupReq0.SPubGW []).2.1 ∧
      (signupStep Fixture.crypto (scanStep ProcState.init Fixture.scan0).state
        Fixture.signupReq0 [] Fixture.rnd0).state.scans Fixture.signupReq0.SPubGW
        = some dev.ScanData :=
  ⟨by decide,
   signup_committed_record Fixture.crypto (scanStep ProcState.init Fixture.scan0).state
     Fixture.signupReq0 [] Fixture.rnd0 (by decide)⟩

set_option maxRecDepth 100000 in
/-- C24 (failing input): in `Fixture.st3` devices 0 and 1 are registered with
empty logs.  The request `Fixture.req1` names device 1; the entry the auth step
appends to the log of device 1 has `DevId = 0`, the zero value of the field,
which the composite literal of step 2 does not set. -/
theorem auth_log_entry_devId_not_set :
    (Fixture.st3.sState 0).isSome = true ∧
    (Fixture.st3.sState 1).map DeviceState.Log = some [] ∧
    Fixture.req1.DevId = 1 ∧
    ((authStep Fixture.crypto Fixture.st3 Fixture.req1 7 none).state.sState 1).map
        DeviceState.Log
      = some [{ ArrivalTime := 7, DevId := 0, Paired := false, AuthReq := Fixture.req1 }] ∧
    ((authStep Fixture.crypto Fixture.st3 Fixture.req1 7 none).state.sState 1).map
        (fun dev => dev.Log.map LogEntry.DevId)
      = some [0] ∧
    (0 : Nat) ≠ Fixture.req1.DevId := by
  decide

/-- C25: the auth step leaves the scan registry, `nextDevId` and the record of
every device other than the addressed one as they are; if the addressed id is
not registered it stays unregistered, and otherwise its record keeps its
session keys, id, type, capability URI, scan data and connection handle (and
its `Paired` flag).  The scan event leaves the device registry and `nextDevId`
as they are. -/
theorem auth_step_frame (C : Crypto) (st : ProcState) (authReq : AuthReq) (now : Nat)
    (rnd : Option (List Nat)) :
    (authStep C st authReq now rnd).state.scans = st.scans ∧
    (authStep C st authReq now rnd).state.nextDevId = st.nextDevId ∧
    (∀ id, id ≠ authReq.DevId →
      (authStep C st authReq now rnd).state.sState id = st.sState id) ∧
    (st.sState authReq.DevId = none →
      (authStep C st authReq now rnd).state.sState authReq.DevId = none) ∧
    (∀ dev, st.sState authReq.DevId = some dev →
      ∃ dev2, (authStep C st authReq now rnd).state.sState authReq.DevId = some dev2 ∧
        dev2.Sesskeys = dev.Sesskeys ∧ dev2.Id = dev.Id ∧ dev2.Type_ = dev.Type_ ∧
        dev2.CapURI = dev.CapURI ∧ dev2.ScanData = dev.ScanData ∧ dev2.Conn = dev.Conn ∧
        dev2.Paired = dev.Paired) ∧
    ∀ scan, (scanStep st scan).state.sState = st.sState ∧
      (scanStep st scan).state.nextDevId = st.nextDevId := by
  refine ⟨(authStep_nextDevId C st authReq now rnd).2, (authStep_nextDevId C st authReq now rnd).1,
    fun id hid => authStep_sState_other C st authReq now rnd id hid, ?_, ?_,
    fun scan => scanStep_sState st scan⟩
  · intro hnone
    unfold authStep
    simp [hnone]
  · intro dev hdev
    obtain ⟨dev2, h2, _, hconn, hid, hty, hcap, hkeys, hp, hscan⟩ :=
      authStep_record C st authReq now rnd dev hdev
    exact ⟨dev2, h2, hkeys, hid, hty, hcap, hscan, hconn, hp⟩

set_option maxRecDepth 100000 in
/-- Witness for the theorem of C25: the accepted request `Fixture.sensorReq` for
device 0 in `Fixture.st1`. -/
theorem auth_step_frame_witness :
    Fixture.st1.sState Fixture.sensorReq.DevId = some (Fixture.device Fixture.st1 0) ∧
    ∃ dev2, (authStep Fixture.crypto Fixture.st1 Fixture.sensorReq 100
        (some Fixture.nonce1)).state.sState Fixture.sensorReq.DevId = some dev2 ∧
      dev2.Sesskeys = (Fixture.device Fixture.st1 0).Sesskeys ∧
      dev2.Id = (Fixture.device Fixture.st1 0).Id ∧
      dev2.Type_ = (Fixture.device Fixture.st1 0).Type_ ∧
      dev2.CapURI = (Fixture.device Fixture.st1 0).CapURI ∧
      dev2.ScanData = (Fixture.device Fixture.st1 0).ScanData ∧
      dev2.Conn = (Fixture.device Fixture.st1 0).Conn ∧
      dev2.Paired = (Fixture.device Fixture.st1 0).Paired :=
  ⟨by decide,
   (auth_step_frame Fixture.crypto Fixture.st1 Fixture.sensorReq 100
     (some Fixture.nonce1)).2.2.2.2.1 (Fixture.device Fixture.st1 0) (by decide)⟩

/-! ## The signup step and the request's MAC tag -/

set_option maxRecDepth 100000 in
/-- C26 (as stated, refuted): the registry holds `Fixture.scan0` under the static
key of `Fixture.zeroPointReq`, whose ephemeral key is the all-zero point.  The
key pair is generated and the first key agreement succeeds; the second, with
the request's ephemeral key, returns an error, and the step ends there: no
record is stored, `nextDevId` is not advanced and nothing is written. -/
theorem signup_with_scan_not_registered :
    (scanStep ProcState.init Fixture.scan0).state.scans Fixture.zeroPointReq.SPubGW
      = some Fixture.scan0 ∧
    (createEphemeralKeyPair Fixture.cryptoStrict Fixture.rnd0).isSome = true ∧
    (diffieHellman Fixture.cryptoStrict (List.replicate 32 3)
      Fixture.zeroPointReq.SPubGW).isSome = true ∧
    diffieHellman Fixture.cryptoStrict (List.replicate 32 3) Fixture.zeroPointReq.EPubGw
      = none ∧
    (signupStep Fixture.cryptoStrict (scanStep ProcState.init Fixture.scan0).state
        Fixture.zeroPointReq [] Fixture.rnd0).branch = .signupDhFailed ∧
    (signupStep Fixture.cryptoStrict (scanStep ProcState.init Fixture.scan0).state
        Fixture.zeroPointReq [] Fixture.rnd0).writes = [] ∧
    (signupStep Fixture.cryptoStrict (scanStep ProcState.init Fixture.scan0).state
        Fixture.zeroPointReq [] Fixture.rnd0).state.sState 0 = none ∧
    (signupStep Fixture.cryptoStrict (scanStep ProcState.init Fixture.scan0).state
        Fixture.zeroPointReq [] Fixture.rnd0).state.nextDevId = 0 := by
  decide

/-- C26 (amended): two signup requests that agree in every field but `MacTag`
give the same step: the same state (device registry, scan registry,
`nextDevId`), the same messages written and the same branch.  A request with
any MAC tag whose static key is in the scan registry or is received from the
queue, handled when the key pair is generated and both key agreements succeed,
is registered under `nextDevId` and answered on its connection.  When the key
pair generation or one of the two key agreements returns an error, the device
registry and `nextDevId` stay as they are and nothing is written. -/
theorem signup_independent_of_macTag (C : Crypto) (st : ProcState) (r1 r2 : SignupReq)
    (queued : List Scan) (rnd : Option (List Nat))
    (hConn : r1.Conn = r2.Conn) (hType : r1.DevType = r2.DevType)
    (hS : r1.SPubGW = r2.SPubGW) (hE : r1.EPubGw = r2.EPubGw) (hCap : r1.CapURI = r2.CapURI) :
    signupStep C st r1 queued rnd = signupStep C st r2 queued rnd ∧
    (∀ (xSlice xP s1 s2 : List Nat),
      ((st.scans r1.SPubGW).isSome = true ∨ r1.SPubGW ∈ queued.map Scan.SPubGW) →
      createEphemeralKeyPair C rnd = some (xSlice, xP) →
      diffieHellman C (goCopy (zeros KEY_LEN) xSlice) r1.SPubGW = some s1 →
      diffieHellman C (goCopy (zeros KEY_LEN) xSlice) r1.EPubGw = some s2 →
      (signupStep C st r2 queued rnd).branch = .signupDone ∧
      (∃ dev, (signupStep C st r2 queued rnd).state.sState st.nextDevId = some dev ∧
        dev.Id = st.nextDevId ∧ dev.Conn = r2.Conn) ∧
      ∃ respMsg, (signupStep C st r2 queued rnd).writes = [(r2.Conn, respMsg)]) ∧
    ((createEphemeralKeyPair C rnd = none ∨
      ∃ xSlice xP, createEphemeralKeyPair C rnd = some (xSlice, xP) ∧
        (diffieHellman C (goCopy (zeros KEY_LEN) xSlice) r1.SPubGW = none ∨
         diffieHellman C (goCopy (zeros KEY_LEN) xSlice) r1.EPubGw = none)) →
      (signupStep C st r2 queued rnd).state.sState = st.sState ∧
      (signupStep C st r2 queued rnd).state.nextDevId = st.nextDevId ∧
      (signupStep C st r2 queued rnd).writes = []) := by
  have heq : signupStep C st r1 queued rnd = signupStep C st r2 queued rnd := by
    cases r1
    cases r2
    simp only at hConn hType hS hE hCap
    subst hConn hType hS hE hCap
    rfl
  refine ⟨heq, ?_, ?_⟩
  · intro xSlice xP s1 s2 hscan hkp h1 h2
    have hflag := (resolveScan_found st.scans r1.SPubGW queued).2.2 hscan
    have hres : resolveScan st.scans r1.SPubGW queued
        = ((resolveScan st.scans r1.SPubGW queued).1,
           (resolveScan st.scans r1.SPubGW queued).2.1, true) := by
      rw [← hflag]
    obtain ⟨hb, ⟨respMsg, _, hw⟩, _, _, hs⟩ :=
      signupStep_of_resolved C st r1 queued rnd _ _ xSlice xP s1 s2 hres hkp h1 h2
    rw [← heq]
    refine ⟨hb, ?_, ⟨respMsg, by rw [hw, hConn]⟩⟩
    rw [hs]
    exact ⟨_, ServerState.store_self _ _ _, rfl, hConn⟩
  · intro herr
    rw [← heq]
    unfold signupStep
    simp only []
    split
    · exact ⟨rfl, rfl, rfl⟩
    · rcases herr with hkp | ⟨xSlice, xP, hkp, hdh | hdh⟩
      · simp [hkp]
      · simp [hkp, hdh]
      · simp only [hkp, hdh]
        cases hd1 : diffieHellman C (goCopy (zeros KEY_LEN) xSlice) r1.SPubGW with
        | none => exact ⟨rfl, rfl, rfl⟩
        | some s1 => exact ⟨rfl, rfl, rfl⟩

set_option maxRecDepth 100000 in
/-- Witness for the theorem of C26: `Fixture.signupReq0` and the same request
with the MAC tag 32 x 0xff, after the scan of `Fixture.scan0`. -/
theorem signup_independent_of_macTag_witness :
    (Fixture.signupReq0.Conn = Fixture.signupReq0b.Conn ∧
     Fixture.signupReq0.DevType = Fixture.signupReq0b.DevType ∧
     Fixture.signupReq0.SPubGW = Fixture.signupReq0b.SPubGW ∧
     Fixture.signupReq0.EPubGw = Fixture.signupReq0b.EPubGw ∧
     Fixture.signupReq0.CapURI = Fixture.signupReq0b.CapURI ∧
     Fixture.signupReq0.MacTag ≠ Fixture.signupReq0b.MacTag) ∧
    signupStep Fixture.crypto (scanStep ProcState.init Fixture.scan0).state
        Fixture.signupReq0 [] Fixture.rnd0
      = signupStep Fixture.crypto (scanStep ProcState.init Fixture.scan0).state
        Fixture.signupReq0b [] Fixture.rnd0 ∧
    (signupStep Fixture.crypto (scanStep ProcState.init Fixture.scan0).state
        Fixture.signupReq0b [] Fixture.rnd0).branch = .signupDone :=
  have h := signup_independent_of_macTag Fixture.crypto
    (scanStep ProcState.init Fixture.scan0).state Fixture.signupReq0 Fixture.signupReq0b []
    Fixture.rnd0 (by decide) (by decide) (by decide) (by decide) (by decide)
  ⟨by decide, h.1,
   (h.2.1 (List.replicate 32 3) (Fixture.dh (List.replicate 32 3) Basepoint)
     (Fixture.dh (List.replicate 32 3) Fixture.signupReq0.SPubGW)
     (Fixture.dh (List.replicate 32 3) Fixture.signupReq0.EPubGw)
     (Or.inl (by decide)) (by decide) (by decide) (by decide)).1⟩

end DeploymentManager
